import Mathlib

/-!
# goadb: device descriptors and the server connection

A shallow embedding of `device_descriptor.go` and `server.go`.

Conventions of the embedding:

* a Go `string` is a Lean `String` (the well-formed UTF-8 case);
* a Go `int` is an `Int`;
* a nilable Go value (`error`, `*wire.Conn`, an interface, a pointer) is an `Option`,
  `none` standing for `nil`;
* a Go function returning `(v, err)` returns the pair, both components kept;
* a run-time panic is the result `none` of the function that panics;
* the injected capabilities (`Dialer`, `filesystem`) are state-passing functions over an
  arbitrary environment type `σ`; every call made through them is recorded in a log.
-/

namespace Goadb

/-! ## device_descriptor.go -/

/-- Go: `type deviceDescriptorType int`. -/
abbrev deviceDescriptorType := Int

/-- Go: `DeviceAny deviceDescriptorType = iota`. -/
def DeviceAny : deviceDescriptorType := 0

/-- Go: `DeviceSerial`, the second constant of the `iota` block. -/
def DeviceSerial : deviceDescriptorType := 1

/-- Go: `DeviceUsb`, the third constant of the `iota` block. -/
def DeviceUsb : deviceDescriptorType := 2

/-- Go: `DeviceLocal`, the fourth constant of the `iota` block. -/
def DeviceLocal : deviceDescriptorType := 3

/-- Go: `type DeviceDescriptor struct`. -/
structure DeviceDescriptor where
  DescriptorType : deviceDescriptorType
  Serial : String
  deriving DecidableEq, Repr

/-- Go: `func AnyDevice() DeviceDescriptor`; the `Serial` field keeps its zero value. -/
def AnyDevice : DeviceDescriptor :=
  { DescriptorType := DeviceAny, Serial := "" }

/-- Go: `func AnyUsbDevice() DeviceDescriptor`. -/
def AnyUsbDevice : DeviceDescriptor :=
  { DescriptorType := DeviceUsb, Serial := "" }

/-- Go: `func AnyLocalDevice() DeviceDescriptor`. -/
def AnyLocalDevice : DeviceDescriptor :=
  { DescriptorType := DeviceLocal, Serial := "" }

/-- Go: `func DeviceWithSerial(serial string) DeviceDescriptor`. -/
def DeviceWithSerial (serial : String) : DeviceDescriptor :=
  { DescriptorType := DeviceSerial, Serial := serial }

/-- Go: `func (d DeviceDescriptor) getHostPrefix() string`. The `switch` is tried case by
case in source order; the `default` branch panics, which is the result `none`. -/
def getHostPrefix (d : DeviceDescriptor) : Option String :=
  if d.DescriptorType = DeviceAny then some "host"
  else if d.DescriptorType = DeviceUsb then some "host-usb"
  else if d.DescriptorType = DeviceLocal then some "host-local"
  else if d.DescriptorType = DeviceSerial then some ("host-Serial:" ++ d.Serial)
  else none

/-- Go: `func (d DeviceDescriptor) getTransportDescriptor() string`, same shape as
`getHostPrefix`. -/
def getTransportDescriptor (d : DeviceDescriptor) : Option String :=
  if d.DescriptorType = DeviceAny then some "transport-any"
  else if d.DescriptorType = DeviceUsb then some "transport-usb"
  else if d.DescriptorType = DeviceLocal then some "transport-local"
  else if d.DescriptorType = DeviceSerial then some ("transport:" ++ d.Serial)
  else none

/-- The four kinds the `const` block defines. -/
def validKind (t : deviceDescriptorType) : Prop :=
  t = DeviceAny ∨ t = DeviceSerial ∨ t = DeviceUsb ∨ t = DeviceLocal

instance (t : deviceDescriptorType) : Decidable (validKind t) := by
  unfold validKind
  infer_instance

/-- A descriptor returned by one of the four constructors. -/
def constructed (d : DeviceDescriptor) : Prop :=
  d = AnyDevice ∨ d = AnyUsbDevice ∨ d = AnyLocalDevice ∨ ∃ s, d = DeviceWithSerial s

/-- Go: the method `String()` of `deviceDescriptorType`, which the directive
`//go:generate stringer -type=deviceDescriptorType` (device_descriptor.go:5) generates
into a file that is not among the sources. Run with `-type` alone (no `-trimprefix`, no
`-linecomment`), stringer returns the identifier of the constant that has the value, and
`deviceDescriptorType(N)` for a value `N` that no constant has. -/
def deviceDescriptorType.String (t : deviceDescriptorType) : String :=
  if t = DeviceAny then "DeviceAny"
  else if t = DeviceSerial then "DeviceSerial"
  else if t = DeviceUsb then "DeviceUsb"
  else if t = DeviceLocal then "DeviceLocal"
  else "deviceDescriptorType(" ++ toString t ++ ")"

/-- Go: `func (d DeviceDescriptor) String() string`. The verb `%s` writes an operand that
has a `String()` method as the result of that method, and a string operand as it is. -/
def DeviceDescriptor.String (d : DeviceDescriptor) : String :=
  if d.DescriptorType = DeviceSerial then
    deviceDescriptorType.String d.DescriptorType ++ "[" ++ d.Serial ++ "]"
  else deviceDescriptorType.String d.DescriptorType

/-! ## Values shared by server.go -/

/-- Modelled from the spec: the error kinds of package `errors`, which is not among the
sources. The spec names a single kind surfaced by this core, `ServerNotAvailable`; `other`
stands for any further kind the package defines. -/
inductive ErrCode where
  | ServerNotAvailable
  | other (tag : Nat)
  deriving DecidableEq, Repr

/-- A non-nil Go `error` value: either an error made outside package `errors` (identified
by `id`, its `Error()` method returning `text`), or an `*errors.Err` carrying a kind, a
message and a cause. -/
inductive GoError where
  | external (id : Nat) (text : String)
  | wrapped (Code : ErrCode) (Message : String) (Cause : GoError)
  deriving DecidableEq, Repr

/-- The `Error()` method of a Go `error`. The method of `*errors.Err` is not among the
sources and is taken as the parameter `errText`. -/
def GoError.Error (errText : ErrCode → String → GoError → String) : GoError → String
  | .external _ text => text
  | .wrapped code message cause => errText code message cause

/-- The error kind of a Go `error`: the `Code` of an `*errors.Err`, and none for an error
that is not an `*errors.Err`. -/
def GoError.kind : GoError → Option ErrCode
  | .external _ _ => none
  | .wrapped code _ _ => some code

/-- Modelled from the spec: `errors.WrapErrorf(cause, code, format, args...)`, which is not
among the sources. By the spec a failure is returned "wrapped as `ServerNotAvailable`",
every occurrence "carries the underlying OS/process/dial error" together with the message,
and `start()` "reports success" when the attempt whose result is used has no error: a nil
cause gives nil. `message` is the format already applied to its arguments. -/
def WrapErrorf (cause : Option GoError) (code : ErrCode) (message : String) :
    Option GoError :=
  match cause with
  | none => none
  | some e => some (GoError.wrapped code message e)

/-- The text `fmt` writes for an `error` operand of the verb `%s`: the result of `Error()`,
or `%!s(<nil>)` for a nil operand. -/
def fmtS (errText : ErrCode → String → GoError → String) : Option GoError → String
  | none => "%!s(<nil>)"
  | some e => e.Error errText

/-- The text `fmt` writes for an `int` operand of the verb `%d`: decimal digits, with a
leading minus sign for a negative number. -/
def fmtD : Int → String
  | Int.ofNat m => Nat.repr m
  | Int.negSucc m => "-" ++ Nat.repr (m + 1)

/-- Go: `unicode.IsSpace`, the code points with the Unicode White_Space property. -/
def isSpace (c : Char) : Bool :=
  let n := c.toNat
  (9 ≤ n && n ≤ 13) || n = 32 || n = 0x85 || n = 0xA0 || n = 0x1680 ||
    (0x2000 ≤ n && n ≤ 0x200A) || n = 0x2028 || n = 0x2029 || n = 0x202F || n = 0x205F ||
    n = 0x3000

/-- Go: `strings.TrimSpace`, all leading and trailing white space removed. -/
def TrimSpace (s : String) : String :=
  ⟨((s.data.dropWhile isSpace).reverse.dropWhile isSpace).reverse⟩

/-- A non-nil `*wire.Conn`, identified by `id`. -/
structure Conn where
  id : Nat
  deriving DecidableEq, Repr

/-- Go: the `Dialer` interface, `Dial(address string) (*wire.Conn, error)`, as a function
of the environment it runs in. -/
structure Dialer (σ : Type) where
  Dial : String → σ → (Option Conn × Option GoError) × σ

/-- Go: `type filesystem struct`, three function fields, each a function of the
environment it runs in. The `[]byte` of `CmdCombinedOutput` is given as the string that
`string(output)` converts it to. -/
structure filesystem (σ : Type) where
  LookPath : String → σ → (String × Option GoError) × σ
  IsExecutableFile : String → σ → Option GoError × σ
  CmdCombinedOutput : String → List String → σ → (String × Option GoError) × σ

/-- A call made through an injected capability, or an entry into `realServer.Start`. -/
inductive Event where
  | dial (address : String)
  | lookPath (file : String)
  | isExecutableFile (path : String)
  | cmdCombinedOutput (name : String) (arg : List String)
  | start
  deriving DecidableEq, Repr

/-- The environment the capabilities act on, with the log of the calls made so far. -/
structure World (σ : Type) where
  env : σ
  log : List Event

/-- Number of dialer calls in a log. -/
def dialCalls (l : List Event) : Nat :=
  l.countP fun e => match e with
    | .dial _ => true
    | _ => false

/-- Number of entries into `Start` in a log. -/
def startCalls (l : List Event) : Nat :=
  l.countP fun e => match e with
    | .start => true
    | _ => false

/-- Number of `CmdCombinedOutput` calls (process invocations) in a log. -/
def cmdCalls (l : List Event) : Nat :=
  l.countP fun e => match e with
    | .cmdCombinedOutput _ _ => true
    | _ => false

/-- Number of `LookPath` calls in a log. -/
def lookPathCalls (l : List Event) : Nat :=
  l.countP fun e => match e with
    | .lookPath _ => true
    | _ => false

/-- Number of `IsExecutableFile` calls in a log. -/
def isExecutableFileCalls (l : List Event) : Nat :=
  l.countP fun e => match e with
    | .isExecutableFile _ => true
    | _ => false

/-- A call `d.Dial(address)`, recorded. -/
def callDial {σ : Type} (d : Dialer σ) (address : String) (w : World σ) :
    (Option Conn × Option GoError) × World σ :=
  let r := d.Dial address w.env
  (r.1, ⟨r.2, w.log ++ [Event.dial address]⟩)

/-- A call `fs.LookPath(file)`, recorded. -/
def callLookPath {σ : Type} (fs : filesystem σ) (file : String) (w : World σ) :
    (String × Option GoError) × World σ :=
  let r := fs.LookPath file w.env
  (r.1, ⟨r.2, w.log ++ [Event.lookPath file]⟩)

/-- A call `fs.IsExecutableFile(path)`, recorded. -/
def callIsExecutableFile {σ : Type} (fs : filesystem σ) (path : String) (w : World σ) :
    Option GoError × World σ :=
  let r := fs.IsExecutableFile path w.env
  (r.1, ⟨r.2, w.log ++ [Event.isExecutableFile path]⟩)

/-- A call `fs.CmdCombinedOutput(name, arg...)`, recorded. -/
def callCmdCombinedOutput {σ : Type} (fs : filesystem σ) (name : String)
    (arg : List String) (w : World σ) : (String × Option GoError) × World σ :=
  let r := fs.CmdCombinedOutput name arg w.env
  (r.1, ⟨r.2, w.log ++ [Event.cmdCombinedOutput name arg]⟩)

/-! ## server.go -/

/-- Go: `AdbExecutableName = "adb"`. -/
def AdbExecutableName : String := "adb"

/-- Go: `AdbPort = 5037`. -/
def AdbPort : Int := 5037

/-- Go: `type ServerConfig struct`; the embedded `Dialer` interface and the pointer `fs`
may be nil. -/
structure ServerConfig (σ : Type) where
  PathToAdb : String
  Host : String
  Port : Int
  Dialer : Option (Dialer σ)
  fs : Option (filesystem σ)

/-- Go: `type realServer struct`. -/
structure realServer (σ : Type) where
  config : ServerConfig σ
  address : String

/-- Go: `newServer`, from the executable check to the end (the statement
`if err := config.fs.IsExecutableFile(...)` and the final `return`). -/
def newServer.validate {σ : Type} (fs : filesystem σ) (config : ServerConfig σ)
    (w : World σ) : (Option (realServer σ) × Option GoError) × World σ :=
  match callIsExecutableFile fs config.PathToAdb w with
  | (some err, w1) =>
    ((none, WrapErrorf (some err) ErrCode.ServerNotAvailable
      ("invalid adb executable: " ++ config.PathToAdb)), w1)
  | (none, w1) =>
    ((some { config := config, address := config.Host ++ ":" ++ fmtD config.Port }, none), w1)

/-- Go: `func newServer(config ServerConfig) (server, error)`. The defaults `tcpDialer{}`
and `localFilesystem` are parameters. -/
def newServer {σ : Type} (tcpDialer : Dialer σ) (localFilesystem : filesystem σ)
    (config : ServerConfig σ) (w : World σ) :
    (Option (realServer σ) × Option GoError) × World σ :=
  let config : ServerConfig σ :=
    match config.Dialer with
    | none => { config with Dialer := some tcpDialer }
    | some _ => config
  let config : ServerConfig σ :=
    if config.Host = "" then { config with Host := "localhost" } else config
  let config : ServerConfig σ :=
    if config.Port = 0 then { config with Port := AdbPort } else config
  let fs : filesystem σ :=
    match config.fs with
    | none => localFilesystem
    | some f => f
  let config : ServerConfig σ := { config with fs := some fs }
  if config.PathToAdb = "" then
    match callLookPath fs AdbExecutableName w with
    | ((_, some err), w1) =>
      ((none, WrapErrorf (some err) ErrCode.ServerNotAvailable
        ("could not find " ++ AdbExecutableName ++ " in PATH")), w1)
    | ((path, none), w1) => newServer.validate fs { config with PathToAdb := path } w1
  else newServer.validate fs config w

/-- Go: `func (s *realServer) Start() error`. The entry is recorded in the log; a nil
`s.config.fs` is a nil dereference (panic, `none`). -/
def Start {σ : Type} (errText : ErrCode → String → GoError → String) (s : realServer σ)
    (w : World σ) : Option (Option GoError × World σ) :=
  let w : World σ := ⟨w.env, w.log ++ [Event.start]⟩
  match s.config.fs with
  | none => none
  | some fs =>
    let first := callCmdCombinedOutput fs s.config.PathToAdb
      ["tcp:" ++ s.address, "start-server"] w
    let last :=
      match first.1.2 with
      | some _ => callCmdCombinedOutput fs s.config.PathToAdb ["start-server"] first.2
      | none => first
    let outputStr := TrimSpace last.1.1
    some (WrapErrorf last.1.2 ErrCode.ServerNotAvailable
      ("error starting Server: " ++ fmtS errText last.1.2 ++ "\noutput:\n" ++ outputStr),
      last.2)

/-- Go: `func (s *realServer) Dial() (*wire.Conn, error)`. A nil `s.config.Dialer` is a
nil dereference (panic, `none`). -/
def Dial {σ : Type} (errText : ErrCode → String → GoError → String) (s : realServer σ)
    (w : World σ) : Option ((Option Conn × Option GoError) × World σ) :=
  match s.config.Dialer with
  | none => none
  | some d =>
    match callDial d s.address w with
    | ((conn, none), w1) => some ((conn, none), w1)
    | ((_, some _), w1) =>
      match Start errText s w1 with
      | none => none
      | some (some err, w2) =>
        some ((none, WrapErrorf (some err) ErrCode.ServerNotAvailable
          "error starting Server for dial"), w2)
      | some (none, w2) =>
        match callDial d s.address w2 with
        | ((_, some err), w3) => some ((none, some err), w3)
        | ((conn, none), w3) => some ((conn, none), w3)

/-- Go: `func (s *realServer) Start() error`, with the object behind the receiver made
part of the state: the method gets the object `*s`, reads its fields where the source
reads them, and hands the object back as it leaves it, next to the result. The source
assigns to no field of `s`. -/
def realServer.Start {σ : Type} (errText : ErrCode → String → GoError → String)
    (s : realServer σ) (w : World σ) : Option (Option GoError × realServer σ × World σ) :=
  let w : World σ := ⟨w.env, w.log ++ [Event.start]⟩
  match s.config.fs with
  | none => none
  | some fs =>
    let first := callCmdCombinedOutput fs s.config.PathToAdb
      ["tcp:" ++ s.address, "start-server"] w
    let last :=
      match first.1.2 with
      | some _ =>
        match s.config.fs with
        | none => none
        | some fs2 => some (callCmdCombinedOutput fs2 s.config.PathToAdb ["start-server"]
            first.2)
      | none => some first
    match last with
    | none => none
    | some last =>
      let outputStr := TrimSpace last.1.1
      some (WrapErrorf last.1.2 ErrCode.ServerNotAvailable
        ("error starting Server: " ++ fmtS errText last.1.2 ++ "\noutput:\n" ++ outputStr),
        s, last.2)

/-- Go: `func (s *realServer) Dial() (*wire.Conn, error)`, with the object behind the
receiver made part of the state, as in `realServer.Start`. The call `s.Start()` hands the
object on, and the second `s.config.Dial(s.address)` reads the dialer and the address from
the object as `Start` left it. -/
def realServer.Dial {σ : Type} (errText : ErrCode → String → GoError → String)
    (s : realServer σ) (w : World σ) :
    Option ((Option Conn × Option GoError) × realServer σ × World σ) :=
  match s.config.Dialer with
  | none => none
  | some d =>
    match callDial d s.address w with
    | ((conn, none), w1) => some ((conn, none), s, w1)
    | ((_, some _), w1) =>
      match realServer.Start errText s w1 with
      | none => none
      | some (some err, s1, w2) =>
        some ((none, WrapErrorf (some err) ErrCode.ServerNotAvailable
          "error starting Server for dial"), s1, w2)
      | some (none, s1, w2) =>
        match s1.config.Dialer with
        | none => none
        | some d1 =>
          match callDial d1 s1.address w2 with
          | ((_, some err), w3) => some ((none, some err), s1, w3)
          | ((conn, none), w3) => some ((conn, none), s1, w3)

/-- The arguments of the address-qualified invocation made by `Start`:
`fmt.Sprintf("tcp:%s", s.address), "start-server"`. -/
def qualifiedArgs {σ : Type} (s : realServer σ) : List String :=
  ["tcp:" ++ s.address, "start-server"]

/-! ## Definitions used to state the properties of `newServer` -/

/-- The configuration after the defaulting steps of `newServer`, in the spec's words:
dialer defaulted to the TCP dialer, host to `localhost`, port to `5037`, process
environment to the OS-backed one. -/
def withDefaults {σ : Type} (tcpDialer : Dialer σ) (localFilesystem : filesystem σ)
    (config : ServerConfig σ) : ServerConfig σ :=
  { PathToAdb := config.PathToAdb
    Host := if config.Host = "" then "localhost" else config.Host
    Port := if config.Port = 0 then 5037 else config.Port
    Dialer := some (config.Dialer.getD tcpDialer)
    fs := some (config.fs.getD localFilesystem) }

/-- The resolved path, in the spec's words: `config.PathToAdb` when it is non-empty, and
otherwise the successful result of `LookPath("adb")`, together with the environment in
which the executable check is then made; `none` when the lookup fails. -/
def resolvedPath {σ : Type} (fs : filesystem σ) (config : ServerConfig σ) (env : σ) :
    Option (String × σ) :=
  if config.PathToAdb = "" then
    match fs.LookPath "adb" env with
    | ((path, none), env1) => some (path, env1)
    | ((_, some _), _) => none
  else some (config.PathToAdb, env)

/-! ## Example capabilities

Concrete dialers and process environments over the environment type `Nat`, which counts
the dialer calls made so far. -/

/-- An `Error()` method for `*errors.Err` that returns the message. -/
def messageText : ErrCode → String → GoError → String :=
  fun _ message _ => message

/-- A dialer that fails on its first call and succeeds afterwards. -/
def flakyDialer : Dialer Nat where
  Dial := fun _ n =>
    if n = 0 then ((none, some (GoError.external 1 "connection refused")), n + 1)
    else ((some ⟨7⟩, none), n + 1)

/-- A dialer that fails on every call, each time with a new error value. -/
def deadDialer : Dialer Nat where
  Dial := fun _ n => ((none, some (GoError.external (10 + n) "connection refused")), n + 1)

/-- A dialer that succeeds on every call. -/
def liveDialer : Dialer Nat where
  Dial := fun _ n => ((some ⟨n⟩, none), n + 1)

/-- A process environment in which every operation succeeds. -/
def okFs : filesystem Nat where
  LookPath := fun _ n => (("/usr/bin/adb", none), n)
  IsExecutableFile := fun _ n => (none, n)
  CmdCombinedOutput := fun _ _ n => (("* daemon started successfully *\n", none), n)

/-- A process environment whose address-qualified start invocation fails and whose
fallback invocation succeeds. -/
def fallbackFs : filesystem Nat where
  LookPath := fun _ n => (("/usr/bin/adb", none), n)
  IsExecutableFile := fun _ n => (none, n)
  CmdCombinedOutput := fun _ arg n =>
    if arg = ["start-server"] then (("* daemon started successfully *\n", none), n)
    else (("adb: unknown option tcp\n", some (GoError.external 20 "exit status 1")), n)

/-- A process environment in which nothing works: no `adb` on the search path, no file is
executable, and both start invocations fail. -/
def brokenFs : filesystem Nat where
  LookPath := fun _ n => (("", some (GoError.external 30 "executable file not found")), n)
  IsExecutableFile := fun _ n => (some (GoError.external 31 "not a regular file"), n)
  CmdCombinedOutput := fun _ arg n =>
    if arg = ["start-server"] then
      ((" \tcannot bind: address in use \n", some (GoError.external 21 "exit status 2")), n)
    else (("adb: unknown option tcp\n", some (GoError.external 20 "exit status 1")), n)

/-- A configuration that leaves everything to the defaults, with the given host. -/
def defaultConfig : ServerConfig Nat :=
  { PathToAdb := "", Host := "localhost", Port := 0, Dialer := none, fs := none }

/-- The server `newServer` builds from `defaultConfig` with the given defaults. -/
def builtServer (d : Dialer Nat) (fs : filesystem Nat) : realServer Nat :=
  { config := { PathToAdb := "/usr/bin/adb", Host := "localhost", Port := 5037,
                Dialer := some d, fs := some fs },
    address := "localhost:5037" }

/-- A dialer that fails on every call and wraps its error as `ServerNotAvailable`. -/
def wrappingDialer : Dialer Nat where
  Dial := fun address n =>
    ((none, some (GoError.wrapped ErrCode.ServerNotAvailable ("error dialing " ++ address)
      (GoError.external (10 + n) "connection refused"))), n + 1)

/-- The error `Start` returns in `brokenFs`, with `messageText`. -/
def brokenStartError : GoError :=
  GoError.wrapped ErrCode.ServerNotAvailable
    "error starting Server: exit status 2\noutput:\ncannot bind: address in use"
    (GoError.external 21 "exit status 2")

/-- The log of a `Dial` whose first dial fails and whose `Start` fails after the fallback
invocation, for `builtServer`. -/
def failedStartLog : List Event :=
  [Event.dial "localhost:5037", Event.start,
    Event.cmdCombinedOutput "/usr/bin/adb" ["tcp:localhost:5037", "start-server"],
    Event.cmdCombinedOutput "/usr/bin/adb" ["start-server"]]

/-! ## Theorems: device_descriptor.go -/

/-- C1: for every string `s`, `getHostPrefix` returns exactly `"host"` on `AnyDevice()`,
`"host-usb"` on `AnyUsbDevice()`, `"host-local"` on `AnyLocalDevice()` and `"host-Serial:"`
followed by `s` unchanged on `DeviceWithSerial(s)`; none of the four calls panics. -/
theorem getHostPrefix_constructors (s : String) :
    getHostPrefix AnyDevice = some "host" ∧
    getHostPrefix AnyUsbDevice = some "host-usb" ∧
    getHostPrefix AnyLocalDevice = some "host-local" ∧
    getHostPrefix (DeviceWithSerial s) = some ("host-Serial:" ++ s) := by
  refine ⟨by decide, by decide, by decide, ?_⟩
  simp [getHostPrefix, DeviceWithSerial, DeviceAny, DeviceUsb, DeviceLocal, DeviceSerial]

/-- C2: for every string `s`, `getTransportDescriptor` returns exactly `"transport-any"` on
`AnyDevice()`, `"transport-usb"` on `AnyUsbDevice()`, `"transport-local"` on
`AnyLocalDevice()` and `"transport:"` followed by `s` unchanged on `DeviceWithSerial(s)`;
none of the four calls panics. -/
theorem getTransportDescriptor_constructors (s : String) :
    getTransportDescriptor AnyDevice = some "transport-any" ∧
    getTransportDescriptor AnyUsbDevice = some "transport-usb" ∧
    getTransportDescriptor AnyLocalDevice = some "transport-local" ∧
    getTransportDescriptor (DeviceWithSerial s) = some ("transport:" ++ s) := by
  refine ⟨by decide, by decide, by decide, ?_⟩
  simp [getTransportDescriptor, DeviceWithSerial, DeviceAny, DeviceUsb, DeviceLocal,
    DeviceSerial]

/-! ## Lemmas: what `Start` computes -/

section StartLemmas

variable {σ : Type} (errText : ErrCode → String → GoError → String)

theorem Start_first_ok (s : realServer σ) (fs : filesystem σ) (hfs : s.config.fs = some fs)
    (w : World σ) (out : String) (env1 : σ)
    (h : fs.CmdCombinedOutput s.config.PathToAdb (qualifiedArgs s) w.env =
      ((out, none), env1)) :
    Start errText s w = some (none, ⟨env1, w.log ++ [Event.start,
      Event.cmdCombinedOutput s.config.PathToAdb (qualifiedArgs s)]⟩) := by
  simp only [qualifiedArgs] at h
  simp [Start, hfs, callCmdCombinedOutput, h, WrapErrorf, qualifiedArgs]

theorem Start_first_err (s : realServer σ) (fs : filesystem σ) (hfs : s.config.fs = some fs)
    (w : World σ) (out1 : String) (e1 : GoError) (env1 : σ)
    (h : fs.CmdCombinedOutput s.config.PathToAdb (qualifiedArgs s) w.env =
      ((out1, some e1), env1))
    (out2 : String) (r2 : Option GoError) (env2 : σ)
    (h2 : fs.CmdCombinedOutput s.config.PathToAdb ["start-server"] env1 =
      ((out2, r2), env2)) :
    Start errText s w = some (WrapErrorf r2 ErrCode.ServerNotAvailable
      ("error starting Server: " ++ fmtS errText r2 ++ "\noutput:\n" ++ TrimSpace out2),
      ⟨env2, w.log ++ [Event.start,
        Event.cmdCombinedOutput s.config.PathToAdb (qualifiedArgs s),
        Event.cmdCombinedOutput s.config.PathToAdb ["start-server"]]⟩) := by
  simp only [qualifiedArgs] at h
  simp [Start, hfs, callCmdCombinedOutput, h, h2, qualifiedArgs]

/-- Whatever the process environment does, a returning `Start` adds to the log its own
entry and one or two process invocations, and nothing else. -/
theorem Start_log (s : realServer σ) (w w2 : World σ) (r : Option GoError)
    (h : Start errText s w = some (r, w2)) :
    dialCalls w2.log = dialCalls w.log ∧ startCalls w2.log = startCalls w.log + 1 ∧
      cmdCalls w2.log ≤ cmdCalls w.log + 2 := by
  cases hfs : s.config.fs with
  | none => simp [Start, hfs] at h
  | some fs =>
    rcases hq : fs.CmdCombinedOutput s.config.PathToAdb (qualifiedArgs s) w.env with
      ⟨⟨out1, r1⟩, env1⟩
    cases r1 with
    | none =>
      rw [Start_first_ok errText s fs hfs w out1 env1 hq] at h
      simp only [Option.some.injEq, Prod.mk.injEq] at h
      rw [← h.2]
      simp [dialCalls, startCalls, cmdCalls, List.countP_append, List.countP_cons]
    | some e1 =>
      rcases hf : fs.CmdCombinedOutput s.config.PathToAdb ["start-server"] env1 with
        ⟨⟨out2, r2⟩, env2⟩
      rw [Start_first_err errText s fs hfs w out1 e1 env1 hq out2 r2 env2 hf] at h
      simp only [Option.some.injEq, Prod.mk.injEq] at h
      rw [← h.2]
      simp [dialCalls, startCalls, cmdCalls, List.countP_append, List.countP_cons]

end StartLemmas

/-! ## Lemmas: what `TrimSpace` removes -/

/-- The string is the trimmed string between a run of leading and a run of trailing white
space, and the trimmed string neither starts nor ends with white space. -/
theorem TrimSpace_spec (s : String) :
    ∃ pre post : List Char,
      s.data = pre ++ (TrimSpace s).data ++ post ∧
      (∀ c ∈ pre, isSpace c = true) ∧ (∀ c ∈ post, isSpace c = true) ∧
      (∀ c, (TrimSpace s).data.head? = some c → isSpace c = false) ∧
      (∀ c, (TrimSpace s).data.getLast? = some c → isSpace c = false) := by
  have ht : (TrimSpace s).data = List.rdropWhile isSpace (s.data.dropWhile isSpace) := rfl
  refine ⟨s.data.takeWhile isSpace, List.rtakeWhile isSpace (s.data.dropWhile isSpace),
    ?_, ?_, ?_, ?_, ?_⟩
  · have hsplit : ∀ m : List Char,
        List.rdropWhile isSpace m ++ List.rtakeWhile isSpace m = m := by
      intro m
      rw [List.rdropWhile, List.rtakeWhile, ← List.reverse_append,
        List.takeWhile_append_dropWhile, List.reverse_reverse]
    rw [ht, List.append_assoc, hsplit, List.takeWhile_append_dropWhile]
  · intro c hc
    exact List.mem_takeWhile_imp hc
  · intro c hc
    exact List.mem_rtakeWhile_imp hc
  · intro c hc
    rw [ht] at hc
    have hpre : List.rdropWhile isSpace (s.data.dropWhile isSpace) <+:
        s.data.dropWhile isSpace := List.rdropWhile_prefix isSpace _
    obtain ⟨u, hu⟩ := hpre
    have hhead : (s.data.dropWhile isSpace).head? = some c := by
      rw [← hu, List.head?_append, hc]
      rfl
    have hnot := List.head?_dropWhile_not isSpace s.data
    rw [hhead] at hnot
    exact hnot
  · intro c hc
    rw [ht] at hc
    have hne : List.rdropWhile isSpace (s.data.dropWhile isSpace) ≠ [] := by
      intro h
      rw [h] at hc
      simp at hc
    rw [List.getLast?_eq_getLast _ hne] at hc
    have hnot := List.rdropWhile_last_not isSpace (s.data.dropWhile isSpace) hne
    simp only [Option.some.injEq] at hc
    rw [hc] at hnot
    simpa using hnot

/-! ## Theorems: `Dial` -/

/-- C3: for a server whose dialer fails on its first call and succeeds on its second, and
whose process environment makes `Start` succeed, `Dial` returns the connection produced by
the second dialer call with no error; the dialer is called exactly twice and `Start` is
entered exactly once. -/
theorem Dial_second_attempt_succeeds {σ : Type}
    (errText : ErrCode → String → GoError → String) (s : realServer σ) (d : Dialer σ)
    (hd : s.config.Dialer = some d) (w : World σ)
    (c1 : Option Conn) (e1 : GoError) (env1 : σ)
    (hfirst : d.Dial s.address w.env = ((c1, some e1), env1))
    (w2 : World σ)
    (hstart : Start errText s ⟨env1, w.log ++ [Event.dial s.address]⟩ = some (none, w2))
    (c2 : Option Conn) (env3 : σ)
    (hsecond : d.Dial s.address w2.env = ((c2, none), env3)) :
    Dial errText s w = some ((c2, none), ⟨env3, w2.log ++ [Event.dial s.address]⟩) ∧
      dialCalls (w2.log ++ [Event.dial s.address]) = dialCalls w.log + 2 ∧
      startCalls (w2.log ++ [Event.dial s.address]) = startCalls w.log + 1 := by
  have hlog := Start_log errText s _ w2 none hstart
  refine ⟨?_, ?_, ?_⟩
  · simp [Dial, hd, callDial, hfirst, hstart, hsecond]
  · simp only [dialCalls, List.countP_append] at hlog ⊢
    simp [hlog.1, List.countP_cons]
  · simp only [startCalls, List.countP_append] at hlog ⊢
    simp [hlog.2.1, List.countP_cons]

/-- Witness of C3: the server `newServer` builds from the default configuration, with a
dialer that fails once and a process environment whose fallback invocation succeeds. -/
theorem Dial_second_attempt_succeeds_witness :
    (newServer flakyDialer fallbackFs defaultConfig ⟨0, []⟩).1 =
      (some (builtServer flakyDialer fallbackFs), none) ∧
    Dial messageText (builtServer flakyDialer fallbackFs) ⟨0, []⟩ =
      some ((some ⟨7⟩, none), ⟨2, [Event.dial "localhost:5037", Event.start,
        Event.cmdCombinedOutput "/usr/bin/adb" ["tcp:localhost:5037", "start-server"],
        Event.cmdCombinedOutput "/usr/bin/adb" ["start-server"],
        Event.dial "localhost:5037"]⟩) ∧
    dialCalls [Event.dial "localhost:5037", Event.start,
        Event.cmdCombinedOutput "/usr/bin/adb" ["tcp:localhost:5037", "start-server"],
        Event.cmdCombinedOutput "/usr/bin/adb" ["start-server"],
        Event.dial "localhost:5037"] = 2 ∧
    startCalls [Event.dial "localhost:5037", Event.start,
        Event.cmdCombinedOutput "/usr/bin/adb" ["tcp:localhost:5037", "start-server"],
        Event.cmdCombinedOutput "/usr/bin/adb" ["start-server"],
        Event.dial "localhost:5037"] = 1 :=
  ⟨rfl, Dial_second_attempt_succeeds messageText (builtServer flakyDialer fallbackFs)
    flakyDialer rfl ⟨0, []⟩ none (GoError.external 1 "connection refused") 1 rfl
    ⟨1, [Event.dial "localhost:5037", Event.start,
        Event.cmdCombinedOutput "/usr/bin/adb" ["tcp:localhost:5037", "start-server"],
        Event.cmdCombinedOutput "/usr/bin/adb" ["start-server"]]⟩ rfl (some ⟨7⟩) 2 rfl⟩

/-- C4: for a server whose dialer fails on both calls and whose `Start` succeeds, `Dial`
returns no connection and exactly the error value of the second dialer call, unwrapped;
the dialer is called exactly twice and `Start` is entered exactly once. -/
theorem Dial_second_attempt_fails {σ : Type}
    (errText : ErrCode → String → GoError → String) (s : realServer σ) (d : Dialer σ)
    (hd : s.config.Dialer = some d) (w : World σ)
    (c1 : Option Conn) (e1 : GoError) (env1 : σ)
    (hfirst : d.Dial s.address w.env = ((c1, some e1), env1))
    (w2 : World σ)
    (hstart : Start errText s ⟨env1, w.log ++ [Event.dial s.address]⟩ = some (none, w2))
    (c2 : Option Conn) (e2 : GoError) (env3 : σ)
    (hsecond : d.Dial s.address w2.env = ((c2, some e2), env3)) :
    Dial errText s w = some ((none, some e2), ⟨env3, w2.log ++ [Event.dial s.address]⟩) ∧
      dialCalls (w2.log ++ [Event.dial s.address]) = dialCalls w.log + 2 ∧
      startCalls (w2.log ++ [Event.dial s.address]) = startCalls w.log + 1 := by
  have hlog := Start_log errText s _ w2 none hstart
  refine ⟨?_, ?_, ?_⟩
  · simp [Dial, hd, callDial, hfirst, hstart, hsecond]
  · simp only [dialCalls, List.countP_append] at hlog ⊢
    simp [hlog.1, List.countP_cons]
  · simp only [startCalls, List.countP_append] at hlog ⊢
    simp [hlog.2.1, List.countP_cons]

/-- Witness of C4: a dialer that fails on every call, with a different error value each
time; the value returned is the second one. -/
theorem Dial_second_attempt_fails_witness :
    (newServer deadDialer okFs defaultConfig ⟨0, []⟩).1 =
      (some (builtServer deadDialer okFs), none) ∧
    Dial messageText (builtServer deadDialer okFs) ⟨0, []⟩ =
      some ((none, some (GoError.external 11 "connection refused")),
        ⟨2, [Event.dial "localhost:5037", Event.start,
          Event.cmdCombinedOutput "/usr/bin/adb" ["tcp:localhost:5037", "start-server"],
          Event.dial "localhost:5037"]⟩) ∧
    dialCalls [Event.dial "localhost:5037", Event.start,
        Event.cmdCombinedOutput "/usr/bin/adb" ["tcp:localhost:5037", "start-server"],
        Event.dial "localhost:5037"] = 2 ∧
    startCalls [Event.dial "localhost:5037", Event.start,
        Event.cmdCombinedOutput "/usr/bin/adb" ["tcp:localhost:5037", "start-server"],
        Event.dial "localhost:5037"] = 1 :=
  ⟨rfl, Dial_second_attempt_fails messageText (builtServer deadDialer okFs)
    deadDialer rfl ⟨0, []⟩ none (GoError.external 10 "connection refused") 1 rfl
    ⟨1, [Event.dial "localhost:5037", Event.start,
        Event.cmdCombinedOutput "/usr/bin/adb" ["tcp:localhost:5037", "start-server"]]⟩
    rfl none (GoError.external 11 "connection refused") 2 rfl⟩

/-- C5: for a server whose first dialer call fails and whose `Start` fails (the
address-qualified and the fallback invocation both return an error), `Dial` returns no
connection and an error of kind `ServerNotAvailable` whose cause is the error returned by
`Start`; the first dial's error is not part of it, and the dialer is called exactly
once. -/
theorem Dial_start_fails {σ : Type}
    (errText : ErrCode → String → GoError → String) (s : realServer σ) (d : Dialer σ)
    (fs : filesystem σ) (hd : s.config.Dialer = some d) (hfs : s.config.fs = some fs)
    (w : World σ) (c1 : Option Conn) (e1 : GoError) (env1 : σ)
    (hfirst : d.Dial s.address w.env = ((c1, some e1), env1))
    (out1 : String) (ea : GoError) (env2 : σ)
    (hqualified : fs.CmdCombinedOutput s.config.PathToAdb (qualifiedArgs s) env1 =
      ((out1, some ea), env2))
    (out2 : String) (eb : GoError) (env3 : σ)
    (hfallback : fs.CmdCombinedOutput s.config.PathToAdb ["start-server"] env2 =
      ((out2, some eb), env3)) :
    ∃ (startErr : GoError) (w2 : World σ),
      Start errText s ⟨env1, w.log ++ [Event.dial s.address]⟩ = some (some startErr, w2) ∧
      Dial errText s w = some ((none, some (GoError.wrapped ErrCode.ServerNotAvailable
        "error starting Server for dial" startErr)), w2) ∧
      dialCalls w2.log = dialCalls w.log + 1 ∧
      startCalls w2.log = startCalls w.log + 1 := by
  have hs := Start_first_err errText s fs hfs ⟨env1, w.log ++ [Event.dial s.address]⟩
    out1 ea env2 hqualified out2 (some eb) env3 hfallback
  simp only [WrapErrorf] at hs
  have hlog := Start_log errText s _ _ _ hs
  refine ⟨_, _, hs, ?_, ?_, ?_⟩
  · simp [Dial, hd, callDial, hfirst, hs, WrapErrorf]
  · rw [hlog.1]
    simp [dialCalls, List.countP_append, List.countP_cons]
  · rw [hlog.2.1]
    simp [startCalls, List.countP_append, List.countP_cons]

/-- Witness of C5: a failing dialer and a process environment whose two start invocations
fail. -/
theorem Dial_start_fails_witness :
    ∃ (startErr : GoError) (w2 : World Nat),
      Start messageText (builtServer deadDialer brokenFs)
        ⟨1, [] ++ [Event.dial "localhost:5037"]⟩ = some (some startErr, w2) ∧
      Dial messageText (builtServer deadDialer brokenFs) ⟨0, []⟩ =
        some ((none, some (GoError.wrapped ErrCode.ServerNotAvailable
          "error starting Server for dial" startErr)), w2) ∧
      dialCalls w2.log = dialCalls [] + 1 ∧
      startCalls w2.log = startCalls [] + 1 :=
  Dial_start_fails messageText (builtServer deadDialer brokenFs) deadDialer brokenFs rfl rfl
    ⟨0, []⟩ none (GoError.external 10 "connection refused") 1 rfl
    "adb: unknown option tcp\n" (GoError.external 20 "exit status 1") 1 rfl
    " \tcannot bind: address in use \n" (GoError.external 21 "exit status 2") 1 rfl

/-! ## Theorems: `Start` -/

/-- C6: for every server with a process environment, `Start` first invokes
`CmdCombinedOutput(PathToAdb, "tcp:" + address, "start-server")`; it invokes the fallback
`CmdCombinedOutput(PathToAdb, "start-server")` exactly once if the first invocation returned
an error and not at all otherwise; it returns nil exactly when the last invocation it made
returned no error; it makes at most two process invocations. -/
theorem Start_invocations {σ : Type} (errText : ErrCode → String → GoError → String)
    (s : realServer σ) (fs : filesystem σ) (hfs : s.config.fs = some fs) (w : World σ) :
    ∃ (r : Option GoError) (w2 : World σ), Start errText s w = some (r, w2) ∧
      ((fs.CmdCombinedOutput s.config.PathToAdb
          ["tcp:" ++ s.address, "start-server"] w.env).1.2 = none →
        w2.log = w.log ++ [Event.start,
          Event.cmdCombinedOutput s.config.PathToAdb
            ["tcp:" ++ s.address, "start-server"]] ∧
        r = none) ∧
      ((fs.CmdCombinedOutput s.config.PathToAdb
          ["tcp:" ++ s.address, "start-server"] w.env).1.2 ≠ none →
        w2.log = w.log ++ [Event.start,
          Event.cmdCombinedOutput s.config.PathToAdb
            ["tcp:" ++ s.address, "start-server"],
          Event.cmdCombinedOutput s.config.PathToAdb ["start-server"]] ∧
        (r = none ↔
          (fs.CmdCombinedOutput s.config.PathToAdb ["start-server"]
            (fs.CmdCombinedOutput s.config.PathToAdb
              ["tcp:" ++ s.address, "start-server"] w.env).2).1.2 = none)) ∧
      cmdCalls w2.log ≤ cmdCalls w.log + 2 := by
  rcases hq : fs.CmdCombinedOutput s.config.PathToAdb
    ["tcp:" ++ s.address, "start-server"] w.env with ⟨⟨out1, r1⟩, env1⟩
  cases r1 with
  | none =>
    have hs := Start_first_ok errText s fs hfs w out1 env1 hq
    refine ⟨_, _, hs, ?_, ?_, (Start_log errText s w _ _ hs).2.2⟩
    · intro _
      exact ⟨rfl, rfl⟩
    · intro h
      exact absurd rfl h
  | some e1 =>
    rcases hf : fs.CmdCombinedOutput s.config.PathToAdb ["start-server"] env1 with
      ⟨⟨out2, r2⟩, env2⟩
    have hs := Start_first_err errText s fs hfs w out1 e1 env1 hq out2 r2 env2 hf
    refine ⟨_, _, hs, ?_, ?_, (Start_log errText s w _ _ hs).2.2⟩
    · intro h
      simp at h
    · intro _
      refine ⟨rfl, ?_⟩
      cases r2 <;> simp [WrapErrorf]

/-- Witness of C6: a process environment whose address-qualified invocation fails and whose
fallback succeeds. -/
theorem Start_invocations_witness :
    Start messageText (builtServer liveDialer fallbackFs) ⟨0, []⟩ =
      some (none, ⟨0, [Event.start,
        Event.cmdCombinedOutput "/usr/bin/adb" ["tcp:localhost:5037", "start-server"],
        Event.cmdCombinedOutput "/usr/bin/adb" ["start-server"]]⟩) ∧
    ∃ (r : Option GoError) (w2 : World Nat),
      Start messageText (builtServer liveDialer fallbackFs) ⟨0, []⟩ = some (r, w2) ∧
      cmdCalls w2.log ≤ 2 := by
  refine ⟨rfl, ?_⟩
  obtain ⟨r, w2, h, _, _, hle⟩ :=
    Start_invocations messageText (builtServer liveDialer fallbackFs) fallbackFs rfl ⟨0, []⟩
  exact ⟨r, w2, h, by simpa [cmdCalls] using hle⟩

/-- C7: when both start invocations fail, the error `Start` returns has kind
`ServerNotAvailable`, its cause is the error of the fallback invocation, and its message
is `"error starting Server: <fallback error>\noutput:\n<out>"`, where `<out>` is the
fallback invocation's output without its leading and trailing white space, the rest
unchanged. Neither the error nor the output of the address-qualified invocation is part of
the result. -/
theorem Start_both_fail {σ : Type} (errText : ErrCode → String → GoError → String)
    (s : realServer σ) (fs : filesystem σ) (hfs : s.config.fs = some fs) (w : World σ)
    (out1 : String) (e1 : GoError) (env1 : σ)
    (hqualified : fs.CmdCombinedOutput s.config.PathToAdb
      ["tcp:" ++ s.address, "start-server"] w.env = ((out1, some e1), env1))
    (out2 : String) (e2 : GoError) (env2 : σ)
    (hfallback : fs.CmdCombinedOutput s.config.PathToAdb ["start-server"] env1 =
      ((out2, some e2), env2)) :
    (∃ w2 : World σ, Start errText s w =
      some (some (GoError.wrapped ErrCode.ServerNotAvailable
        ("error starting Server: " ++ e2.Error errText ++ "\noutput:\n" ++ TrimSpace out2)
        e2), w2)) ∧
    ∃ pre post : List Char,
      out2.data = pre ++ (TrimSpace out2).data ++ post ∧
      (∀ c ∈ pre, isSpace c = true) ∧ (∀ c ∈ post, isSpace c = true) ∧
      (∀ c, (TrimSpace out2).data.head? = some c → isSpace c = false) ∧
      (∀ c, (TrimSpace out2).data.getLast? = some c → isSpace c = false) := by
  have hs := Start_first_err errText s fs hfs w out1 e1 env1 hqualified out2 (some e2) env2
    hfallback
  simp only [WrapErrorf, fmtS] at hs
  exact ⟨⟨_, hs⟩, TrimSpace_spec out2⟩

/-- Witness of C7: the fallback invocation prints `" \tcannot bind: address in use \n"` and
exits with status 2. -/
theorem Start_both_fail_witness :
    ∃ w2 : World Nat, Start messageText (builtServer liveDialer brokenFs) ⟨0, []⟩ =
      some (some (GoError.wrapped ErrCode.ServerNotAvailable
        "error starting Server: exit status 2\noutput:\ncannot bind: address in use"
        (GoError.external 21 "exit status 2")), w2) :=
  (Start_both_fail messageText (builtServer liveDialer brokenFs) brokenFs rfl ⟨0, []⟩
    "adb: unknown option tcp\n" (GoError.external 20 "exit status 1") 0 rfl
    " \tcannot bind: address in use \n" (GoError.external 21 "exit status 2") 0 rfl).1

/-! ## Lemmas: what `newServer` computes -/

section NewServerLemmas

variable {σ : Type} (tcpDialer : Dialer σ) (localFilesystem : filesystem σ)

theorem newServer_of_path (config : ServerConfig σ) (w : World σ)
    (h : config.PathToAdb ≠ "") :
    newServer tcpDialer localFilesystem config w =
      newServer.validate (config.fs.getD localFilesystem)
        (withDefaults tcpDialer localFilesystem config) w := by
  rcases config with ⟨path, host, port, d, fs⟩
  simp only [ne_eq] at h
  cases d <;> cases fs <;> by_cases hh : host = "" <;> by_cases hp : port = 0 <;>
    simp [newServer, withDefaults, h, hh, hp, AdbPort]

theorem newServer_of_lookPath_ok (config : ServerConfig σ) (w : World σ)
    (h : config.PathToAdb = "") (path : String) (env1 : σ)
    (hlook : (config.fs.getD localFilesystem).LookPath "adb" w.env = ((path, none), env1)) :
    newServer tcpDialer localFilesystem config w =
      newServer.validate (config.fs.getD localFilesystem)
        { withDefaults tcpDialer localFilesystem config with PathToAdb := path }
        ⟨env1, w.log ++ [Event.lookPath "adb"]⟩ := by
  rcases config with ⟨path0, host, port, d, fs⟩
  simp only at h
  subst h
  cases d <;> cases fs <;> by_cases hh : host = "" <;> by_cases hp : port = 0 <;>
    simp_all [newServer, withDefaults, AdbPort, callLookPath, AdbExecutableName]

theorem newServer_of_lookPath_err (config : ServerConfig σ) (w : World σ)
    (h : config.PathToAdb = "") (path : String) (err : GoError) (env1 : σ)
    (hlook : (config.fs.getD localFilesystem).LookPath "adb" w.env =
      ((path, some err), env1)) :
    newServer tcpDialer localFilesystem config w =
      ((none, some (GoError.wrapped ErrCode.ServerNotAvailable
        "could not find adb in PATH" err)), ⟨env1, w.log ++ [Event.lookPath "adb"]⟩) := by
  rcases config with ⟨path0, host, port, d, fs⟩
  simp only at h
  subst h
  have hmsg : "could not find " ++ AdbExecutableName ++ " in PATH" =
      "could not find adb in PATH" := by decide
  cases d <;> cases fs <;> by_cases hh : host = "" <;> by_cases hp : port = 0 <;>
    simp_all [newServer, withDefaults, AdbPort, callLookPath, AdbExecutableName, WrapErrorf]

theorem validate_ok (fs : filesystem σ) (config : ServerConfig σ) (w : World σ) (env1 : σ)
    (h : fs.IsExecutableFile config.PathToAdb w.env = (none, env1)) :
    newServer.validate fs config w =
      ((some { config := config, address := config.Host ++ ":" ++ fmtD config.Port }, none),
        ⟨env1, w.log ++ [Event.isExecutableFile config.PathToAdb]⟩) := by
  simp [newServer.validate, callIsExecutableFile, h]

theorem validate_err (fs : filesystem σ) (config : ServerConfig σ) (w : World σ)
    (err : GoError) (env1 : σ)
    (h : fs.IsExecutableFile config.PathToAdb w.env = (some err, env1)) :
    newServer.validate fs config w =
      ((none, some (GoError.wrapped ErrCode.ServerNotAvailable
        ("invalid adb executable: " ++ config.PathToAdb) err)),
        ⟨env1, w.log ++ [Event.isExecutableFile config.PathToAdb]⟩) := by
  simp [newServer.validate, callIsExecutableFile, h, WrapErrorf]

/-- A server returned by `newServer` is the defaulted configuration with the resolved
path, which passed the executable check, and comes with a nil error. -/
theorem newServer_some (config : ServerConfig σ) (w : World σ) (s : realServer σ)
    (h : (newServer tcpDialer localFilesystem config w).1.1 = some s) :
    ∃ (path : String) (env1 : σ),
      resolvedPath (config.fs.getD localFilesystem) config w.env = some (path, env1) ∧
      ((config.fs.getD localFilesystem).IsExecutableFile path env1).1 = none ∧
      s = { config := { withDefaults tcpDialer localFilesystem config with
                        PathToAdb := path },
            address := (withDefaults tcpDialer localFilesystem config).Host ++ ":" ++
              fmtD (withDefaults tcpDialer localFilesystem config).Port } ∧
      (newServer tcpDialer localFilesystem config w).1.2 = none := by
  by_cases hp : config.PathToAdb = ""
  · rcases hl : (config.fs.getD localFilesystem).LookPath "adb" w.env with
      ⟨⟨path, r⟩, env1⟩
    cases r with
    | some err =>
      rw [newServer_of_lookPath_err tcpDialer localFilesystem config w hp path err env1 hl]
        at h
      simp at h
    | none =>
      rw [newServer_of_lookPath_ok tcpDialer localFilesystem config w hp path env1 hl] at h ⊢
      rcases hx : (config.fs.getD localFilesystem).IsExecutableFile path env1 with ⟨r2, env2⟩
      cases r2 with
      | some err =>
        rw [validate_err _ _ _ err env2 hx] at h
        simp at h
      | none =>
        rw [validate_ok _ _ _ env2 hx] at h ⊢
        simp only [Option.some.injEq] at h
        refine ⟨path, env1, ?_, ?_, h.symm, rfl⟩
        · simp [resolvedPath, hp, hl]
        · rw [hx]
  · rw [newServer_of_path tcpDialer localFilesystem config w hp] at h ⊢
    rcases hx : (config.fs.getD localFilesystem).IsExecutableFile config.PathToAdb w.env with
      ⟨r2, env2⟩
    have hx2 : (config.fs.getD localFilesystem).IsExecutableFile
        (withDefaults tcpDialer localFilesystem config).PathToAdb w.env = (r2, env2) := hx
    cases r2 with
    | some err =>
      rw [validate_err _ _ _ err env2 hx2] at h
      simp at h
    | none =>
      rw [validate_ok _ _ _ env2 hx2] at h ⊢
      simp only [Option.some.injEq] at h
      refine ⟨config.PathToAdb, w.env, ?_, ?_, h.symm, rfl⟩
      · simp [resolvedPath, hp]
      · rw [hx]

/-- Whatever the executable check answers, it is the one call `newServer.validate`
makes. -/
theorem validate_log (fs : filesystem σ) (config : ServerConfig σ) (w : World σ) :
    (newServer.validate fs config w).2.log =
      w.log ++ [Event.isExecutableFile config.PathToAdb] := by
  rcases hx : fs.IsExecutableFile config.PathToAdb w.env with ⟨r, env1⟩
  cases r with
  | none => rw [validate_ok fs config w env1 hx]
  | some err => rw [validate_err fs config w err env1 hx]

/-- Once the path is resolved, `newServer` is the executable check on the defaulted
configuration carrying that path; no lookup was made when `PathToAdb` was given. -/
theorem newServer_of_resolved (config : ServerConfig σ) (w : World σ) (path : String)
    (env1 : σ)
    (h : resolvedPath (config.fs.getD localFilesystem) config w.env = some (path, env1)) :
    ∃ log1 : List Event,
      newServer tcpDialer localFilesystem config w =
        newServer.validate (config.fs.getD localFilesystem)
          { withDefaults tcpDialer localFilesystem config with PathToAdb := path }
          ⟨env1, log1⟩ ∧
      (config.PathToAdb ≠ "" → log1 = w.log) := by
  by_cases hp : config.PathToAdb = ""
  · rcases hl : (config.fs.getD localFilesystem).LookPath "adb" w.env with
      ⟨⟨path1, r⟩, env2⟩
    cases r with
    | some err => simp [resolvedPath, hp, hl] at h
    | none =>
      simp only [resolvedPath, hp, hl, if_true, Option.some.injEq, Prod.mk.injEq] at h
      rw [← h.1, ← h.2]
      exact ⟨_, newServer_of_lookPath_ok tcpDialer localFilesystem config w hp path1 env2 hl,
        fun hne => absurd hp hne⟩
  · simp only [resolvedPath, hp, if_false, Option.some.injEq, Prod.mk.injEq] at h
    rw [← h.1, ← h.2]
    exact ⟨w.log, newServer_of_path tcpDialer localFilesystem config w hp, fun _ => rfl⟩

/-- When the path resolves and passes the executable check, `newServer` returns the
server made of the defaulted configuration with that path, and a nil error. -/
theorem newServer_of_check_ok (config : ServerConfig σ) (w : World σ) (path : String)
    (env1 : σ)
    (hr : resolvedPath (config.fs.getD localFilesystem) config w.env = some (path, env1))
    (hx : ((config.fs.getD localFilesystem).IsExecutableFile path env1).1 = none) :
    (newServer tcpDialer localFilesystem config w).1 =
      (some { config := { withDefaults tcpDialer localFilesystem config with
                          PathToAdb := path },
              address := (withDefaults tcpDialer localFilesystem config).Host ++ ":" ++
                fmtD (withDefaults tcpDialer localFilesystem config).Port }, none) := by
  obtain ⟨log1, hn, -⟩ := newServer_of_resolved tcpDialer localFilesystem config w path env1 hr
  rcases hx2 : (config.fs.getD localFilesystem).IsExecutableFile path env1 with ⟨r, env2⟩
  rw [hx2] at hx
  simp only at hx
  subst hx
  rw [hn, validate_ok _ _ ⟨env1, log1⟩ env2 hx2]

end NewServerLemmas

/-! ## Theorems: `newServer` -/

/-- C8: `newServer` returns a server whenever the resolved path passes the executable
check, and whenever it returns a server the cached address is the host (`localhost` when
`config.Host` is empty), a colon, and the port in decimal (`5037` when `config.Port` is
`0`); for `Host = "localhost"` and `Port = 0` the address is `localhost:5037`. -/
theorem newServer_address {σ : Type} (tcpDialer : Dialer σ) (localFilesystem : filesystem σ)
    (config : ServerConfig σ) (w : World σ) :
    (∀ s : realServer σ, (newServer tcpDialer localFilesystem config w).1.1 = some s →
      s.address = (if config.Host = "" then "localhost" else config.Host) ++ ":" ++
          fmtD (if config.Port = 0 then 5037 else config.Port) ∧
        (config.Host = "localhost" → config.Port = 0 → s.address = "localhost:5037")) ∧
    (∀ (path : String) (env1 : σ),
      resolvedPath (config.fs.getD localFilesystem) config w.env = some (path, env1) →
      ((config.fs.getD localFilesystem).IsExecutableFile path env1).1 = none →
      ∃ s : realServer σ,
        (newServer tcpDialer localFilesystem config w).1 = (some s, none) ∧
        s.address = (if config.Host = "" then "localhost" else config.Host) ++ ":" ++
          fmtD (if config.Port = 0 then 5037 else config.Port) ∧
        (config.Host = "localhost" → config.Port = 0 → s.address = "localhost:5037")) := by
  have hparticular : config.Host = "localhost" → config.Port = 0 →
      (if config.Host = "" then "localhost" else config.Host) ++ ":" ++
        fmtD (if config.Port = 0 then 5037 else config.Port) = "localhost:5037" := by
    intro hh hp
    rw [hh, hp]
    decide
  constructor
  · intro s h
    obtain ⟨path, env1, -, -, hs, -⟩ := newServer_some tcpDialer localFilesystem config w s h
    have haddr : s.address = (if config.Host = "" then "localhost" else config.Host) ++
        ":" ++ fmtD (if config.Port = 0 then 5037 else config.Port) := by
      rw [hs]
      rfl
    exact ⟨haddr, fun hh hp => haddr.trans (hparticular hh hp)⟩
  · intro path env1 hr hx
    exact ⟨_, newServer_of_check_ok tcpDialer localFilesystem config w path env1 hr hx, rfl,
      fun hh hp => hparticular hh hp⟩

/-- Witness of C8: in a process environment where everything succeeds, `newServer` returns
a server with the address `localhost:5037` for `Host = "localhost"`, `Port = 0` (the
executable found by `LookPath`), the same address for an empty host, and `10.0.2.2:5555`
for a host and a port that are given. -/
theorem newServer_address_witness :
    (∃ s : realServer Nat,
      (newServer liveDialer okFs defaultConfig ⟨0, []⟩).1 = (some s, none) ∧
      s.address = "localhost:5037") ∧
    (∃ s : realServer Nat,
      (newServer liveDialer okFs
        { PathToAdb := "/opt/adb", Host := "", Port := 0, Dialer := none, fs := none }
        ⟨0, []⟩).1 = (some s, none) ∧
      s.address = "localhost:5037") ∧
    (∃ s : realServer Nat,
      (newServer liveDialer okFs
        { PathToAdb := "/opt/adb", Host := "10.0.2.2", Port := 5555, Dialer := none,
          fs := none } ⟨0, []⟩).1 = (some s, none) ∧
      s.address = "10.0.2.2:5555") :=
  ⟨(fun ⟨s, hs, _, hp⟩ => ⟨s, hs, hp rfl rfl⟩)
      ((newServer_address liveDialer okFs defaultConfig ⟨0, []⟩).2 "/usr/bin/adb" 0 rfl rfl),
    (fun ⟨s, hs, ha, _⟩ => ⟨s, hs, ha.trans (by decide)⟩)
      ((newServer_address liveDialer okFs
        { PathToAdb := "/opt/adb", Host := "", Port := 0, Dialer := none, fs := none }
        ⟨0, []⟩).2 "/opt/adb" 0 rfl rfl),
    (fun ⟨s, hs, ha, _⟩ => ⟨s, hs, ha.trans (by decide)⟩)
      ((newServer_address liveDialer okFs
        { PathToAdb := "/opt/adb", Host := "10.0.2.2", Port := 5555, Dialer := none,
          fs := none } ⟨0, []⟩).2 "/opt/adb" 0 rfl rfl)⟩

/-- C9: for every configuration with an empty `PathToAdb` whose filesystem's
`LookPath("adb")` returns an error, `newServer` returns no server and an error of kind
`ServerNotAvailable` whose cause is the `LookPath` error; `LookPath` is the only call made,
so `IsExecutableFile` is never called and no address is cached. -/
theorem newServer_lookPath_fails {σ : Type} (tcpDialer : Dialer σ)
    (localFilesystem : filesystem σ) (config : ServerConfig σ) (w : World σ)
    (hpath : config.PathToAdb = "") (path : String) (err : GoError) (env1 : σ)
    (hlook : (config.fs.getD localFilesystem).LookPath "adb" w.env =
      ((path, some err), env1)) :
    (newServer tcpDialer localFilesystem config w).1 =
        (none, some (GoError.wrapped ErrCode.ServerNotAvailable
          "could not find adb in PATH" err)) ∧
      (newServer tcpDialer localFilesystem config w).2.log =
        w.log ++ [Event.lookPath "adb"] ∧
      isExecutableFileCalls (newServer tcpDialer localFilesystem config w).2.log =
        isExecutableFileCalls w.log := by
  rw [newServer_of_lookPath_err tcpDialer localFilesystem config w hpath path err env1 hlook]
  refine ⟨rfl, rfl, ?_⟩
  simp [isExecutableFileCalls, List.countP_append, List.countP_cons]

/-- Witness of C9: the default configuration in a process environment without `adb` on
the search path. -/
theorem newServer_lookPath_fails_witness :
    (newServer liveDialer brokenFs defaultConfig ⟨0, []⟩).1 =
        (none, some (GoError.wrapped ErrCode.ServerNotAvailable
          "could not find adb in PATH" (GoError.external 30 "executable file not found"))) ∧
      (newServer liveDialer brokenFs defaultConfig ⟨0, []⟩).2.log =
        [] ++ [Event.lookPath "adb"] ∧
      isExecutableFileCalls (newServer liveDialer brokenFs defaultConfig ⟨0, []⟩).2.log =
        isExecutableFileCalls [] :=
  newServer_lookPath_fails liveDialer brokenFs defaultConfig ⟨0, []⟩ rfl ""
    (GoError.external 30 "executable file not found") 0 rfl

/-- C10: `newServer` returns a server if and only if the resolved path passes
`IsExecutableFile`, the resolved path being `config.PathToAdb` when it is non-empty
(`LookPath` is then never called) and otherwise the successful result of
`LookPath("adb")`; when `IsExecutableFile` returns an error, `newServer` returns no server
and an error of kind `ServerNotAvailable` wrapping that error; a returned server comes with
a nil error and stores the resolved path as its `PathToAdb`. -/
theorem newServer_iff_executable {σ : Type} (tcpDialer : Dialer σ)
    (localFilesystem : filesystem σ) (config : ServerConfig σ) (w : World σ) :
    ((∃ s, (newServer tcpDialer localFilesystem config w).1.1 = some s) ↔
      ∃ (path : String) (env1 : σ),
        resolvedPath (config.fs.getD localFilesystem) config w.env = some (path, env1) ∧
        ((config.fs.getD localFilesystem).IsExecutableFile path env1).1 = none) ∧
    (config.PathToAdb ≠ "" →
      resolvedPath (config.fs.getD localFilesystem) config w.env =
        some (config.PathToAdb, w.env) ∧
      lookPathCalls (newServer tcpDialer localFilesystem config w).2.log =
        lookPathCalls w.log) ∧
    (∀ (path : String) (env1 : σ) (err : GoError),
      resolvedPath (config.fs.getD localFilesystem) config w.env = some (path, env1) →
      ((config.fs.getD localFilesystem).IsExecutableFile path env1).1 = some err →
      (newServer tcpDialer localFilesystem config w).1 =
        (none, some (GoError.wrapped ErrCode.ServerNotAvailable
          ("invalid adb executable: " ++ path) err))) ∧
    (∀ s, (newServer tcpDialer localFilesystem config w).1.1 = some s →
      (newServer tcpDialer localFilesystem config w).1.2 = none ∧
      ∃ (path : String) (env1 : σ),
        resolvedPath (config.fs.getD localFilesystem) config w.env = some (path, env1) ∧
        s.config.PathToAdb = path) := by
  refine ⟨⟨?_, ?_⟩, ?_, ?_, ?_⟩
  · rintro ⟨s, hs⟩
    obtain ⟨path, env1, hr, hx, -, -⟩ :=
      newServer_some tcpDialer localFilesystem config w s hs
    exact ⟨path, env1, hr, hx⟩
  · rintro ⟨path, env1, hr, hx⟩
    obtain ⟨log1, hn, -⟩ := newServer_of_resolved tcpDialer localFilesystem config w path env1 hr
    rcases hx2 : (config.fs.getD localFilesystem).IsExecutableFile path env1 with ⟨r, env2⟩
    rw [hx2] at hx
    simp only at hx
    subst hx
    rw [hn, validate_ok _ _ ⟨env1, log1⟩ env2 hx2]
    exact ⟨_, rfl⟩
  · intro hp
    have hr : resolvedPath (config.fs.getD localFilesystem) config w.env =
        some (config.PathToAdb, w.env) := by
      simp [resolvedPath, hp]
    refine ⟨hr, ?_⟩
    rw [newServer_of_path tcpDialer localFilesystem config w hp, validate_log]
    simp [lookPathCalls, List.countP_append, List.countP_cons]
  · intro path env1 err hr hx
    obtain ⟨log1, hn, -⟩ := newServer_of_resolved tcpDialer localFilesystem config w path env1 hr
    rcases hx2 : (config.fs.getD localFilesystem).IsExecutableFile path env1 with ⟨r, env2⟩
    rw [hx2] at hx
    simp only at hx
    subst hx
    rw [hn, validate_err _ _ ⟨env1, log1⟩ err env2 hx2]
  · intro s hs
    obtain ⟨path, env1, hr, -, hcfg, hnil⟩ :=
      newServer_some tcpDialer localFilesystem config w s hs
    refine ⟨hnil, path, env1, hr, ?_⟩
    rw [hcfg]

/-- Witness of C10: a configuration that names its executable, in a process environment
where no file is executable; no lookup is made and the error of the check is wrapped. -/
theorem newServer_iff_executable_witness :
    lookPathCalls (newServer liveDialer brokenFs
      { defaultConfig with PathToAdb := "/opt/adb" } ⟨0, []⟩).2.log = lookPathCalls [] ∧
    (newServer liveDialer brokenFs { defaultConfig with PathToAdb := "/opt/adb" } ⟨0, []⟩).1 =
      (none, some (GoError.wrapped ErrCode.ServerNotAvailable
        ("invalid adb executable: " ++ "/opt/adb")
        (GoError.external 31 "not a regular file"))) :=
  have h := newServer_iff_executable liveDialer brokenFs
    { defaultConfig with PathToAdb := "/opt/adb" } ⟨0, []⟩
  ⟨(h.2.1 (by decide)).2,
    h.2.2.1 "/opt/adb" 0 (GoError.external 31 "not a regular file") rfl rfl⟩

/-! ## Lemmas: when the encoders panic -/

/-- Each encoder reaches its `default` branch exactly on a kind outside the four. -/
theorem encoders_panic_iff_invalid_aux (d : DeviceDescriptor) :
    (getHostPrefix d = none ↔ ¬ validKind d.DescriptorType) ∧
    (getTransportDescriptor d = none ↔ ¬ validKind d.DescriptorType) := by
  constructor
  · unfold getHostPrefix validKind
    split_ifs <;> simp_all
  · unfold getTransportDescriptor validKind
    split_ifs <;> simp_all

/-! ## Theorems: the encoders on every descriptor -/

/-- C13: for every descriptor `d`, with any `Serial`, `getHostPrefix(d)` panics if and only
if `d.DescriptorType` is none of `DeviceAny`, `DeviceSerial`, `DeviceUsb`, `DeviceLocal`,
and the same holds for `getTransportDescriptor(d)`; neither encoder panics on a descriptor
returned by a constructor, and for an invalid kind neither returns a string. -/
theorem encoders_panic_iff_invalid (d : DeviceDescriptor) :
    (getHostPrefix d = none ↔ ¬ validKind d.DescriptorType) ∧
    (getTransportDescriptor d = none ↔ ¬ validKind d.DescriptorType) ∧
    (constructed d → getHostPrefix d ≠ none ∧ getTransportDescriptor d ≠ none) ∧
    (¬ validKind d.DescriptorType →
      ∀ out : String, getHostPrefix d ≠ some out ∧ getTransportDescriptor d ≠ some out) := by
  have hhost := (encoders_panic_iff_invalid_aux d).1
  have htrans := (encoders_panic_iff_invalid_aux d).2
  refine ⟨hhost, htrans, ?_, ?_⟩
  · intro hc
    have hv : validKind d.DescriptorType := by
      rcases hc with h | h | h | ⟨s, h⟩ <;> subst h <;>
        simp [validKind, AnyDevice, AnyUsbDevice, AnyLocalDevice, DeviceWithSerial]
    exact ⟨fun h => hhost.mp h hv, fun h => htrans.mp h hv⟩
  · intro hv out
    rw [hhost.mpr hv, htrans.mpr hv]
    simp

/-- C16: `DeviceWithSerial(s)` has kind `DeviceSerial` and `Serial` field exactly `s`, for
every string `s`; `AnyDevice()`, `AnyUsbDevice()` and `AnyLocalDevice()` have the kinds
`DeviceAny`, `DeviceUsb` and `DeviceLocal` and an empty `Serial` field. -/
theorem constructors_fields (s : String) :
    ((DeviceWithSerial s).DescriptorType = DeviceSerial ∧ (DeviceWithSerial s).Serial = s) ∧
    (AnyDevice.DescriptorType = DeviceAny ∧ AnyDevice.Serial = "") ∧
    (AnyUsbDevice.DescriptorType = DeviceUsb ∧ AnyUsbDevice.Serial = "") ∧
    (AnyLocalDevice.DescriptorType = DeviceLocal ∧ AnyLocalDevice.Serial = "") :=
  ⟨⟨rfl, rfl⟩, ⟨rfl, rfl⟩, ⟨rfl, rfl⟩, ⟨rfl, rfl⟩⟩

/-- C14, as stated, fails: `DeviceWithSerial("X1").String()` is `"DeviceSerial[X1]"`, not
`"Serial[X1]"`, and `AnyDevice().String()` is `"DeviceAny"`, not `"Any"`. -/
theorem String_constructors_counterexample :
    (DeviceWithSerial "X1").String = "DeviceSerial[X1]" ∧
    (DeviceWithSerial "X1").String ≠ "Serial[X1]" ∧
    AnyDevice.String = "DeviceAny" ∧
    AnyDevice.String ≠ "Any" := by
  decide

/-- C14, amended: for every string `s`, `DeviceWithSerial(s).String()` is `"DeviceSerial["`,
then `s`, then `"]"`, so `DeviceWithSerial("X1").String()` is `"DeviceSerial[X1]"`; for the
three other constructors `String()` is the name of the kind as stringer gives it, the
identifier of the constant, without brackets: `"DeviceAny"`, `"DeviceUsb"`,
`"DeviceLocal"`. -/
theorem String_constructors (s : String) :
    (DeviceWithSerial s).String = "DeviceSerial[" ++ s ++ "]" ∧
    (DeviceWithSerial "X1").String = "DeviceSerial[X1]" ∧
    (AnyDevice.String = deviceDescriptorType.String DeviceAny ∧
      AnyDevice.String = "DeviceAny") ∧
    (AnyUsbDevice.String = deviceDescriptorType.String DeviceUsb ∧
      AnyUsbDevice.String = "DeviceUsb") ∧
    (AnyLocalDevice.String = deviceDescriptorType.String DeviceLocal ∧
      AnyLocalDevice.String = "DeviceLocal") := by
  refine ⟨?_, by decide, by decide, by decide, by decide⟩
  have hname : deviceDescriptorType.String DeviceSerial = "DeviceSerial" := by decide
  have hcat : "DeviceSerial" ++ "[" = "DeviceSerial[" := by decide
  simp only [DeviceDescriptor.String, DeviceWithSerial, if_true, hname, hcat]

/-! ## Lemmas: comparing the encodings -/

/-- A string is cancelled on the left of `++`. -/
theorem append_left_cancel (p a b : String) (h : p ++ a = p ++ b) : a = b := by
  have hd : (p ++ a).data = (p ++ b).data := by rw [h]
  simp only [String.data_append, List.append_cancel_left_eq] at hd
  exact String.ext hd

/-- Every result of `getHostPrefix` starts with `h`. -/
theorem getHostPrefix_head (d : DeviceDescriptor) (out : String)
    (h : getHostPrefix d = some out) : out.data.head? = some (Char.ofNat 104) := by
  unfold getHostPrefix at h
  split_ifs at h <;> simp only [Option.some.injEq] at h <;> subst h <;> rfl

/-- Every result of `getTransportDescriptor` starts with `t`. -/
theorem getTransportDescriptor_head (d : DeviceDescriptor) (out : String)
    (h : getTransportDescriptor d = some out) : out.data.head? = some (Char.ofNat 116) := by
  unfold getTransportDescriptor at h
  split_ifs at h <;> simp only [Option.some.injEq] at h <;> subst h <;> rfl

/-- The sixth character of a host prefix tells `host-Serial:<serial>` from the three fixed
prefixes, whatever the serial. -/
theorem hostSerial_sixth (s : String) :
    ("host-Serial:" ++ s).data.get? 5 = some (Char.ofNat 83) := rfl

/-- The tenth character of a transport descriptor tells `transport:<serial>` from the three
fixed descriptors, whatever the serial. -/
theorem transportSerial_tenth (s : String) :
    ("transport:" ++ s).data.get? 9 = some (Char.ofNat 58) := rfl

/-- The host prefix of `DeviceWithSerial(s)` is none of the three fixed prefixes. -/
theorem hostSerial_ne_fixed (s : String) :
    "host-Serial:" ++ s ≠ "host" ∧ "host-Serial:" ++ s ≠ "host-usb" ∧
      "host-Serial:" ++ s ≠ "host-local" := by
  refine ⟨?_, ?_, ?_⟩ <;> intro h <;>
    have h5 := hostSerial_sixth s <;> rw [h] at h5 <;> exact absurd h5 (by decide)

/-- The transport descriptor of `DeviceWithSerial(s)` is none of the three fixed
descriptors. -/
theorem transportSerial_ne_fixed (s : String) :
    "transport:" ++ s ≠ "transport-any" ∧ "transport:" ++ s ≠ "transport-usb" ∧
      "transport:" ++ s ≠ "transport-local" := by
  refine ⟨?_, ?_, ?_⟩ <;> intro h <;>
    have h9 := transportSerial_tenth s <;> rw [h] at h9 <;> exact absurd h9 (by decide)

theorem getHostPrefix_AnyDevice : getHostPrefix AnyDevice = some "host" := by decide

theorem getHostPrefix_AnyUsbDevice : getHostPrefix AnyUsbDevice = some "host-usb" := by decide

theorem getHostPrefix_AnyLocalDevice : getHostPrefix AnyLocalDevice = some "host-local" := by
  decide

theorem getHostPrefix_DeviceWithSerial (s : String) :
    getHostPrefix (DeviceWithSerial s) = some ("host-Serial:" ++ s) := by
  simp [getHostPrefix, DeviceWithSerial, DeviceAny, DeviceUsb, DeviceLocal, DeviceSerial]

theorem getTransportDescriptor_AnyDevice :
    getTransportDescriptor AnyDevice = some "transport-any" := by decide

theorem getTransportDescriptor_AnyUsbDevice :
    getTransportDescriptor AnyUsbDevice = some "transport-usb" := by decide

theorem getTransportDescriptor_AnyLocalDevice :
    getTransportDescriptor AnyLocalDevice = some "transport-local" := by decide

theorem getTransportDescriptor_DeviceWithSerial (s : String) :
    getTransportDescriptor (DeviceWithSerial s) = some ("transport:" ++ s) := by
  simp [getTransportDescriptor, DeviceWithSerial, DeviceAny, DeviceUsb, DeviceLocal,
    DeviceSerial]

/-! ## Theorems: comparing the encodings -/

/-- C15: the two encodings never coincide: for descriptors `d1` and `d2` of valid kind,
with any serial strings, both encoders return a string and `getHostPrefix(d1)` differs from
`getTransportDescriptor(d2)`; in particular `getHostPrefix(d)` differs from
`getTransportDescriptor(d)` for every valid `d`. -/
theorem encodings_never_coincide (d1 d2 : DeviceDescriptor)
    (h1 : validKind d1.DescriptorType) (h2 : validKind d2.DescriptorType) :
    (∃ a b : String, getHostPrefix d1 = some a ∧ getTransportDescriptor d2 = some b ∧
      a ≠ b) ∧
    getHostPrefix d1 ≠ getTransportDescriptor d2 ∧
    getHostPrefix d1 ≠ getTransportDescriptor d1 := by
  have key : ∀ e1 e2 : DeviceDescriptor, validKind e1.DescriptorType →
      validKind e2.DescriptorType →
      ∃ a b : String, getHostPrefix e1 = some a ∧ getTransportDescriptor e2 = some b ∧
        a ≠ b := by
    intro e1 e2 v1 v2
    cases ha : getHostPrefix e1 with
    | none =>
      exact absurd v1 ((encoders_panic_iff_invalid_aux e1).1.mp ha)
    | some a =>
      cases hb : getTransportDescriptor e2 with
      | none =>
        exact absurd v2 ((encoders_panic_iff_invalid_aux e2).2.mp hb)
      | some b =>
        refine ⟨a, b, rfl, rfl, ?_⟩
        intro hab
        have hh := getHostPrefix_head e1 a ha
        have ht := getTransportDescriptor_head e2 b hb
        rw [hab, ht] at hh
        exact absurd hh (by decide)
  refine ⟨key d1 d2 h1 h2, ?_, ?_⟩
  · obtain ⟨a, b, ha, hb, hne⟩ := key d1 d2 h1 h2
    rw [ha, hb]
    exact fun h => hne (Option.some.inj h)
  · obtain ⟨a, b, ha, hb, hne⟩ := key d1 d1 h1 h1
    rw [ha, hb]
    exact fun h => hne (Option.some.inj h)

/-- Witness of C15: the host prefix `host-usb` against the transport descriptor of the
serial `usb`. -/
theorem encodings_never_coincide_witness :
    (∃ a b : String, getHostPrefix AnyUsbDevice = some a ∧
      getTransportDescriptor (DeviceWithSerial "usb") = some b ∧ a ≠ b) ∧
    getHostPrefix AnyUsbDevice ≠ getTransportDescriptor (DeviceWithSerial "usb") ∧
    getHostPrefix AnyUsbDevice ≠ getTransportDescriptor AnyUsbDevice :=
  encodings_never_coincide AnyUsbDevice (DeviceWithSerial "usb") (by decide) (by decide)

/-- C19: each encoder is injective on the descriptors returned by the constructors: for
`d1` and `d2` returned by `AnyDevice`, `AnyUsbDevice`, `AnyLocalDevice` or
`DeviceWithSerial` (with any serial strings), `getHostPrefix(d1) = getHostPrefix(d2)`
implies `d1 = d2`, and `getTransportDescriptor(d1) = getTransportDescriptor(d2)` implies
`d1 = d2`. -/
theorem encoders_injective_on_constructed (d1 d2 : DeviceDescriptor)
    (h1 : constructed d1) (h2 : constructed d2) :
    (getHostPrefix d1 = getHostPrefix d2 → d1 = d2) ∧
    (getTransportDescriptor d1 = getTransportDescriptor d2 → d1 = d2) := by
  constructor
  · rcases h1 with h | h | h | ⟨s1, h⟩ <;> rcases h2 with h' | h' | h' | ⟨s2, h'⟩ <;>
      subst h <;> subst h' <;> intro heq <;>
      simp only [getHostPrefix_AnyDevice, getHostPrefix_AnyUsbDevice,
        getHostPrefix_AnyLocalDevice, getHostPrefix_DeviceWithSerial,
        Option.some.injEq] at heq
    · rfl
    · exact absurd heq (by decide)
    · exact absurd heq (by decide)
    · exact absurd heq.symm (hostSerial_ne_fixed s2).1
    · exact absurd heq (by decide)
    · rfl
    · exact absurd heq (by decide)
    · exact absurd heq.symm (hostSerial_ne_fixed s2).2.1
    · exact absurd heq (by decide)
    · exact absurd heq (by decide)
    · rfl
    · exact absurd heq.symm (hostSerial_ne_fixed s2).2.2
    · exact absurd heq (hostSerial_ne_fixed s1).1
    · exact absurd heq (hostSerial_ne_fixed s1).2.1
    · exact absurd heq (hostSerial_ne_fixed s1).2.2
    · rw [append_left_cancel "host-Serial:" s1 s2 heq]
  · rcases h1 with h | h | h | ⟨s1, h⟩ <;> rcases h2 with h' | h' | h' | ⟨s2, h'⟩ <;>
      subst h <;> subst h' <;> intro heq <;>
      simp only [getTransportDescriptor_AnyDevice, getTransportDescriptor_AnyUsbDevice,
        getTransportDescriptor_AnyLocalDevice, getTransportDescriptor_DeviceWithSerial,
        Option.some.injEq] at heq
    · rfl
    · exact absurd heq (by decide)
    · exact absurd heq (by decide)
    · exact absurd heq.symm (transportSerial_ne_fixed s2).1
    · exact absurd heq (by decide)
    · rfl
    · exact absurd heq (by decide)
    · exact absurd heq.symm (transportSerial_ne_fixed s2).2.1
    · exact absurd heq (by decide)
    · exact absurd heq (by decide)
    · rfl
    · exact absurd heq.symm (transportSerial_ne_fixed s2).2.2
    · exact absurd heq (transportSerial_ne_fixed s1).1
    · exact absurd heq (transportSerial_ne_fixed s1).2.1
    · exact absurd heq (transportSerial_ne_fixed s1).2.2
    · rw [append_left_cancel "transport:" s1 s2 heq]

/-- Witness of C19: the descriptor of any USB device and the descriptor of the serial
`usb` are different, so their encodings are different. -/
theorem encoders_injective_on_constructed_witness :
    getHostPrefix AnyUsbDevice ≠ getHostPrefix (DeviceWithSerial "usb") ∧
    getTransportDescriptor AnyUsbDevice ≠ getTransportDescriptor (DeviceWithSerial "usb") :=
  have h := encoders_injective_on_constructed AnyUsbDevice (DeviceWithSerial "usb")
    (Or.inr (Or.inl rfl)) (Or.inr (Or.inr (Or.inr ⟨"usb", rfl⟩)))
  ⟨fun e => absurd (h.1 e) (by decide), fun e => absurd (h.2 e) (by decide)⟩

/-! ## Lemmas: the calls `Start` and `Dial` make -/

section CallLemmas

variable {σ : Type} (errText : ErrCode → String → GoError → String)

/-- With a process environment, `Start` returns. -/
theorem Start_total (s : realServer σ) (fs : filesystem σ) (hfs : s.config.fs = some fs)
    (w : World σ) : ∃ (r : Option GoError) (w2 : World σ), Start errText s w = some (r, w2) := by
  rcases hq : fs.CmdCombinedOutput s.config.PathToAdb (qualifiedArgs s) w.env with
    ⟨⟨out1, r1⟩, env1⟩
  cases r1 with
  | none => exact ⟨_, _, Start_first_ok errText s fs hfs w out1 env1 hq⟩
  | some e1 =>
    rcases hf : fs.CmdCombinedOutput s.config.PathToAdb ["start-server"] env1 with
      ⟨⟨out2, r2⟩, env2⟩
    exact ⟨_, _, Start_first_err errText s fs hfs w out1 e1 env1 hq out2 r2 env2 hf⟩

/-- The log of a returning `Start`: its entry, the address-qualified invocation, and
possibly the fallback invocation. -/
theorem Start_events (s : realServer σ) (w w2 : World σ) (r : Option GoError)
    (h : Start errText s w = some (r, w2)) :
    w2.log = w.log ++ [Event.start,
        Event.cmdCombinedOutput s.config.PathToAdb (qualifiedArgs s)] ∨
      w2.log = w.log ++ [Event.start,
        Event.cmdCombinedOutput s.config.PathToAdb (qualifiedArgs s),
        Event.cmdCombinedOutput s.config.PathToAdb ["start-server"]] := by
  cases hfs : s.config.fs with
  | none => simp [Start, hfs] at h
  | some fs =>
    rcases hq : fs.CmdCombinedOutput s.config.PathToAdb (qualifiedArgs s) w.env with
      ⟨⟨out1, r1⟩, env1⟩
    cases r1 with
    | none =>
      rw [Start_first_ok errText s fs hfs w out1 env1 hq] at h
      simp only [Option.some.injEq, Prod.mk.injEq] at h
      rw [← h.2]
      exact Or.inl rfl
    | some e1 =>
      rcases hf : fs.CmdCombinedOutput s.config.PathToAdb ["start-server"] env1 with
        ⟨⟨out2, r2⟩, env2⟩
      rw [Start_first_err errText s fs hfs w out1 e1 env1 hq out2 r2 env2 hf] at h
      simp only [Option.some.injEq, Prod.mk.injEq] at h
      rw [← h.2]
      exact Or.inr rfl

/-- What a returning `Dial` did, by the three ways it returns: the first dial succeeded;
the first dial failed and `Start` failed; the first dial failed, `Start` succeeded and the
dialer was called again. -/
theorem Dial_cases (s : realServer σ) (d : Dialer σ) (hd : s.config.Dialer = some d)
    (w w3 : World σ) (r : Option Conn × Option GoError)
    (h : Dial errText s w = some (r, w3)) :
    (∃ c, d.Dial s.address w.env = ((c, none), w3.env) ∧ r = (c, none) ∧
      w3.log = w.log ++ [Event.dial s.address]) ∨
    (∃ c1 e1 env1 startErr,
      d.Dial s.address w.env = ((c1, some e1), env1) ∧
      Start errText s ⟨env1, w.log ++ [Event.dial s.address]⟩ = some (some startErr, w3) ∧
      r = (none, some (GoError.wrapped ErrCode.ServerNotAvailable
        "error starting Server for dial" startErr))) ∨
    (∃ c1 e1 env1 w2 c2 r2,
      d.Dial s.address w.env = ((c1, some e1), env1) ∧
      Start errText s ⟨env1, w.log ++ [Event.dial s.address]⟩ = some (none, w2) ∧
      d.Dial s.address w2.env = ((c2, r2), w3.env) ∧
      w3.log = w2.log ++ [Event.dial s.address] ∧
      ((r2 = none ∧ r = (c2, none)) ∨ ∃ e2, r2 = some e2 ∧ r = (none, some e2))) := by
  rcases h1 : d.Dial s.address w.env with ⟨⟨c1, r1⟩, env1⟩
  cases r1 with
  | none =>
    left
    simp only [Dial, hd, callDial, h1, Option.some.injEq, Prod.mk.injEq] at h
    obtain ⟨rfl, rfl⟩ := h
    exact ⟨c1, rfl, rfl, rfl⟩
  | some e1 =>
    right
    cases hs : Start errText s ⟨env1, w.log ++ [Event.dial s.address]⟩ with
    | none => simp [Dial, hd, callDial, h1, hs] at h
    | some p =>
      rcases p with ⟨rs, w2⟩
      cases rs with
      | some startErr =>
        left
        simp only [Dial, hd, callDial, h1, hs, WrapErrorf, Option.some.injEq,
          Prod.mk.injEq] at h
        obtain ⟨rfl, rfl⟩ := h
        exact ⟨c1, e1, env1, startErr, rfl, hs, rfl⟩
      | none =>
        right
        rcases h2 : d.Dial s.address w2.env with ⟨⟨c2, r2⟩, env3⟩
        cases r2 with
        | none =>
          simp only [Dial, hd, callDial, h1, hs, h2, Option.some.injEq, Prod.mk.injEq] at h
          obtain ⟨rfl, rfl⟩ := h
          exact ⟨c1, e1, env1, w2, c2, none, rfl, hs, h2, rfl, Or.inl ⟨rfl, rfl⟩⟩
        | some e2 =>
          simp only [Dial, hd, callDial, h1, hs, h2, Option.some.injEq, Prod.mk.injEq] at h
          obtain ⟨rfl, rfl⟩ := h
          exact ⟨c1, e1, env1, w2, c2, some e2, rfl, hs, h2, rfl, Or.inr ⟨e2, rfl, rfl⟩⟩

/-- With a dialer and a process environment, `Dial` returns. -/
theorem Dial_total (s : realServer σ) (d : Dialer σ) (fs : filesystem σ)
    (hd : s.config.Dialer = some d) (hfs : s.config.fs = some fs) (w : World σ) :
    ∃ (r : Option Conn × Option GoError) (w3 : World σ), Dial errText s w = some (r, w3) := by
  rcases h1 : d.Dial s.address w.env with ⟨⟨c1, r1⟩, env1⟩
  cases r1 with
  | none => exact ⟨_, _, by simp [Dial, hd, callDial, h1]; exact ⟨rfl, rfl⟩⟩
  | some e1 =>
    obtain ⟨rs, w2, hs⟩ :=
      Start_total errText s fs hfs ⟨env1, w.log ++ [Event.dial s.address]⟩
    cases rs with
    | some startErr => exact ⟨_, _, by simp [Dial, hd, callDial, h1, hs]; exact ⟨rfl, rfl⟩⟩
    | none =>
      rcases h2 : d.Dial s.address w2.env with ⟨⟨c2, r2⟩, env3⟩
      cases r2 with
      | none => exact ⟨_, _, by simp [Dial, hd, callDial, h1, hs, h2]; exact ⟨rfl, rfl⟩⟩
      | some e2 => exact ⟨_, _, by simp [Dial, hd, callDial, h1, hs, h2]; exact ⟨rfl, rfl⟩⟩

end CallLemmas

/-! ## Theorems: every run of `Dial` -/

/-- C11, as stated, fails: a dialer that fails twice with an error that is not an
`*errors.Err`, and a `Start` that succeeds; `Dial` returns the second dial's error as it
is, and its kind is not `ServerNotAvailable`. -/
theorem Dial_error_kind_counterexample :
    Dial messageText (builtServer deadDialer okFs) ⟨0, []⟩ =
      some ((none, some (GoError.external 11 "connection refused")),
        ⟨2, [Event.dial "localhost:5037", Event.start,
          Event.cmdCombinedOutput "/usr/bin/adb" ["tcp:localhost:5037", "start-server"],
          Event.dial "localhost:5037"]⟩) ∧
    (GoError.external 11 "connection refused").kind ≠ some ErrCode.ServerNotAvailable :=
  ⟨rfl, by decide⟩

/-- C11, amended: an error returned by `Dial` comes with no connection and either has kind
`ServerNotAvailable` and wraps the error returned by a failed `Start`, or is exactly the
error value returned by the second dialer call after a successful `Start`, whatever its
kind; so it has kind `ServerNotAvailable` whenever every error of the dialer has. -/
theorem Dial_error_kind {σ : Type} (errText : ErrCode → String → GoError → String)
    (s : realServer σ) (d : Dialer σ) (hd : s.config.Dialer = some d) (w w3 : World σ)
    (c : Option Conn) (e : GoError) (h : Dial errText s w = some ((c, some e), w3)) :
    c = none ∧
    ((e.kind = some ErrCode.ServerNotAvailable ∧
        ∃ (env1 : σ) (startErr : GoError),
          Start errText s ⟨env1, w.log ++ [Event.dial s.address]⟩ =
            some (some startErr, w3) ∧
          e = GoError.wrapped ErrCode.ServerNotAvailable "error starting Server for dial"
            startErr) ∨
      ∃ (env1 : σ) (w2 : World σ) (c2 : Option Conn),
        Start errText s ⟨env1, w.log ++ [Event.dial s.address]⟩ = some (none, w2) ∧
        d.Dial s.address w2.env = ((c2, some e), w3.env)) ∧
    ((∀ (a : String) (env : σ) (c1 : Option Conn) (e1 : GoError) (env1 : σ),
        d.Dial a env = ((c1, some e1), env1) → e1.kind = some ErrCode.ServerNotAvailable) →
      e.kind = some ErrCode.ServerNotAvailable) := by
  rcases Dial_cases errText s d hd w w3 _ h with
    ⟨c0, -, hr, -⟩ | ⟨c1, e1, env1, startErr, -, hs, hr⟩ |
    ⟨c1, e1, env1, w2, c2, r2, -, hs, h2, -, ⟨-, hr⟩ | ⟨e2, hr2, hr⟩⟩
  · simp at hr
  · simp only [Prod.mk.injEq, Option.some.injEq] at hr
    obtain ⟨rfl, rfl⟩ := hr
    exact ⟨rfl, Or.inl ⟨rfl, env1, startErr, hs, rfl⟩, fun _ => rfl⟩
  · simp at hr
  · simp only [Prod.mk.injEq, Option.some.injEq] at hr
    obtain ⟨rfl, rfl⟩ := hr
    subst hr2
    exact ⟨rfl, Or.inr ⟨env1, w2, c2, hs, h2⟩, fun hall => hall _ _ _ _ _ h2⟩

/-- Witness of C11, amended: a dialer that wraps its errors as `ServerNotAvailable` and a
`Start` that succeeds; the error returned is the second dial's and has that kind. -/
theorem Dial_error_kind_witness :
    Dial messageText (builtServer wrappingDialer okFs) ⟨0, []⟩ =
      some ((none, some (GoError.wrapped ErrCode.ServerNotAvailable
        "error dialing localhost:5037" (GoError.external 11 "connection refused"))),
        ⟨2, [Event.dial "localhost:5037", Event.start,
          Event.cmdCombinedOutput "/usr/bin/adb" ["tcp:localhost:5037", "start-server"],
          Event.dial "localhost:5037"]⟩) ∧
    (GoError.wrapped ErrCode.ServerNotAvailable
      "error dialing localhost:5037" (GoError.external 11 "connection refused")).kind =
      some ErrCode.ServerNotAvailable :=
  ⟨rfl, (Dial_error_kind messageText (builtServer wrappingDialer okFs) wrappingDialer rfl
    ⟨0, []⟩ ⟨2, [Event.dial "localhost:5037", Event.start,
      Event.cmdCombinedOutput "/usr/bin/adb" ["tcp:localhost:5037", "start-server"],
      Event.dial "localhost:5037"]⟩ none
    (GoError.wrapped ErrCode.ServerNotAvailable
      "error dialing localhost:5037" (GoError.external 11 "connection refused")) rfl).2.2
    (by
      intro a env c1 e1 env1 h
      simp only [wrappingDialer, Prod.mk.injEq, Option.some.injEq] at h
      rw [← h.1.2]
      rfl)⟩

/-- C12: for every dialer and every process environment, whatever they answer, one call
of `Dial` returns, having made at most 2 dialer calls, at most 1 call of `Start` and at
most 2 process invocations. -/
theorem Dial_bounded {σ : Type} (errText : ErrCode → String → GoError → String)
    (s : realServer σ) (d : Dialer σ) (fs : filesystem σ)
    (hd : s.config.Dialer = some d) (hfs : s.config.fs = some fs) (w : World σ) :
    ∃ (r : Option Conn × Option GoError) (w3 : World σ),
      Dial errText s w = some (r, w3) ∧
      dialCalls w3.log ≤ dialCalls w.log + 2 ∧
      startCalls w3.log ≤ startCalls w.log + 1 ∧
      cmdCalls w3.log ≤ cmdCalls w.log + 2 := by
  obtain ⟨r, w3, h⟩ := Dial_total errText s d fs hd hfs w
  refine ⟨r, w3, h, ?_⟩
  rcases Dial_cases errText s d hd w w3 r h with
    ⟨c0, -, -, hlog⟩ | ⟨c1, e1, env1, startErr, -, hs, -⟩ |
    ⟨c1, e1, env1, w2, c2, r2, -, hs, -, hlog, -⟩
  · rw [hlog]
    simp [dialCalls, startCalls, cmdCalls, List.countP_append, List.countP_cons]
  · have hl := Start_log errText s _ w3 _ hs
    simp only [dialCalls, startCalls, cmdCalls, List.countP_append, List.countP_cons,
      List.countP_nil] at hl ⊢
    simp only [if_true, Bool.false_eq_true, if_false] at hl
    omega
  · have hl := Start_log errText s _ w2 _ hs
    rw [hlog]
    simp only [dialCalls, startCalls, cmdCalls, List.countP_append, List.countP_cons,
      List.countP_nil] at hl ⊢
    simp only [if_true, Bool.false_eq_true, if_false] at hl ⊢
    omega

/-- Witness of C12: a dialer that fails on every call and a process environment whose
address-qualified invocation fails: 2 dialer calls, 1 call of `Start`, 2 process
invocations. -/
theorem Dial_bounded_witness :
    ∃ (r : Option Conn × Option GoError) (w3 : World Nat),
      Dial messageText (builtServer deadDialer fallbackFs) ⟨0, []⟩ = some (r, w3) ∧
      dialCalls w3.log ≤ dialCalls [] + 2 ∧
      startCalls w3.log ≤ startCalls [] + 1 ∧
      cmdCalls w3.log ≤ cmdCalls [] + 2 :=
  Dial_bounded messageText (builtServer deadDialer fallbackFs) deadDialer fallbackFs rfl rfl
    ⟨0, []⟩

/-- C17: for every server whose first dialer call succeeds, `Dial` returns exactly that
connection with a nil error; the dialer is called exactly once, `Start` is not entered and
`CmdCombinedOutput` is not called. -/
theorem Dial_first_attempt_succeeds {σ : Type}
    (errText : ErrCode → String → GoError → String) (s : realServer σ) (d : Dialer σ)
    (hd : s.config.Dialer = some d) (w : World σ) (c : Option Conn) (env1 : σ)
    (hfirst : d.Dial s.address w.env = ((c, none), env1)) :
    Dial errText s w = some ((c, none), ⟨env1, w.log ++ [Event.dial s.address]⟩) ∧
      dialCalls (w.log ++ [Event.dial s.address]) = dialCalls w.log + 1 ∧
      startCalls (w.log ++ [Event.dial s.address]) = startCalls w.log ∧
      cmdCalls (w.log ++ [Event.dial s.address]) = cmdCalls w.log := by
  refine ⟨?_, ?_, ?_, ?_⟩
  · simp [Dial, hd, callDial, hfirst]
  · simp [dialCalls, List.countP_append, List.countP_cons]
  · simp [startCalls, List.countP_append, List.countP_cons]
  · simp [cmdCalls, List.countP_append, List.countP_cons]

/-- Witness of C17: a dialer that succeeds, in a process environment where nothing works;
the process environment is not used. -/
theorem Dial_first_attempt_succeeds_witness :
    Dial messageText (builtServer liveDialer brokenFs) ⟨0, []⟩ =
      some ((some ⟨0⟩, none), ⟨1, [] ++ [Event.dial "localhost:5037"]⟩) ∧
    dialCalls ([] ++ [Event.dial "localhost:5037"]) = dialCalls [] + 1 ∧
    startCalls ([] ++ [Event.dial "localhost:5037"]) = startCalls [] ∧
    cmdCalls ([] ++ [Event.dial "localhost:5037"]) = cmdCalls [] :=
  Dial_first_attempt_succeeds messageText (builtServer liveDialer brokenFs) liveDialer rfl
    ⟨0, []⟩ (some ⟨0⟩) 1 rfl

/-! ## Lemmas: the arguments of the calls `Dial` and `Start` make -/

section ArgumentLemmas

variable {σ : Type} (errText : ErrCode → String → GoError → String)

/-- Every call `Dial` makes is a dialer call with `s.address`, an entry into `Start`, or
one of the two start invocations; the first call is the dialer call. -/
theorem Dial_calls (s : realServer σ) (d : Dialer σ) (fs : filesystem σ)
    (hd : s.config.Dialer = some d) (hfs : s.config.fs = some fs) (w : World σ) :
    ∃ (r : Option Conn × Option GoError) (w3 : World σ) (l : List Event),
      Dial errText s w = some (r, w3) ∧ w3.log = w.log ++ l ∧
      l.head? = some (Event.dial s.address) ∧
      ∀ ev ∈ l, ev = Event.dial s.address ∨ ev = Event.start ∨
        ev = Event.cmdCombinedOutput s.config.PathToAdb
          ["tcp:" ++ s.address, "start-server"] ∨
        ev = Event.cmdCombinedOutput s.config.PathToAdb ["start-server"] := by
  obtain ⟨r, w3, h⟩ := Dial_total errText s _ _ hd hfs w
  rcases Dial_cases errText s _ hd w w3 r h with
    ⟨c0, -, -, hlog⟩ | ⟨c1, e1, env1, startErr, -, hst, -⟩ |
    ⟨c1, e1, env1, w2, c2, r2, -, hst, -, hlog, -⟩
  · refine ⟨r, w3, [Event.dial s.address], h, hlog, rfl, ?_⟩
    intro ev hev
    simp only [List.mem_singleton] at hev
    exact Or.inl hev
  · rcases Start_events errText s _ w3 _ hst with hl | hl
    · refine ⟨r, w3, [Event.dial s.address, Event.start,
        Event.cmdCombinedOutput s.config.PathToAdb (qualifiedArgs s)], h, ?_, rfl, ?_⟩
      · rw [hl]
        simp
      · intro ev hev
        simp only [List.mem_cons, List.mem_singleton, List.not_mem_nil, or_false] at hev
        rcases hev with hev | hev | hev
        · exact Or.inl hev
        · exact Or.inr (Or.inl hev)
        · exact Or.inr (Or.inr (Or.inl hev))
    · refine ⟨r, w3, [Event.dial s.address, Event.start,
        Event.cmdCombinedOutput s.config.PathToAdb (qualifiedArgs s),
        Event.cmdCombinedOutput s.config.PathToAdb ["start-server"]], h, ?_, rfl, ?_⟩
      · rw [hl]
        simp
      · intro ev hev
        simp only [List.mem_cons, List.mem_singleton, List.not_mem_nil, or_false] at hev
        rcases hev with hev | hev | hev | hev
        · exact Or.inl hev
        · exact Or.inr (Or.inl hev)
        · exact Or.inr (Or.inr (Or.inl hev))
        · exact Or.inr (Or.inr (Or.inr hev))
  · rcases Start_events errText s _ w2 _ hst with hl | hl
    · refine ⟨r, w3, [Event.dial s.address, Event.start,
        Event.cmdCombinedOutput s.config.PathToAdb (qualifiedArgs s),
        Event.dial s.address], h, ?_, rfl, ?_⟩
      · rw [hlog, hl]
        simp
      · intro ev hev
        simp only [List.mem_cons, List.mem_singleton, List.not_mem_nil, or_false] at hev
        rcases hev with hev | hev | hev | hev
        · exact Or.inl hev
        · exact Or.inr (Or.inl hev)
        · exact Or.inr (Or.inr (Or.inl hev))
        · exact Or.inl hev
    · refine ⟨r, w3, [Event.dial s.address, Event.start,
        Event.cmdCombinedOutput s.config.PathToAdb (qualifiedArgs s),
        Event.cmdCombinedOutput s.config.PathToAdb ["start-server"],
        Event.dial s.address], h, ?_, rfl, ?_⟩
      · rw [hlog, hl]
        simp
      · intro ev hev
        simp only [List.mem_cons, List.mem_singleton, List.not_mem_nil, or_false] at hev
        rcases hev with hev | hev | hev | hev | hev
        · exact Or.inl hev
        · exact Or.inr (Or.inl hev)
        · exact Or.inr (Or.inr (Or.inl hev))
        · exact Or.inr (Or.inr (Or.inr hev))
        · exact Or.inl hev

/-- `Start` begins with the address-qualified invocation, and makes at most the fallback
invocation after it. -/
theorem Start_calls (s : realServer σ) (fs : filesystem σ) (hfs : s.config.fs = some fs)
    (w : World σ) :
    ∃ (r : Option GoError) (w2 : World σ) (l : List Event),
      Start errText s w = some (r, w2) ∧
      w2.log = w.log ++ Event.start ::
        Event.cmdCombinedOutput s.config.PathToAdb
          ["tcp:" ++ s.address, "start-server"] :: l ∧
      (l = [] ∨ l = [Event.cmdCombinedOutput s.config.PathToAdb ["start-server"]]) := by
  obtain ⟨r, w2, h⟩ := Start_total errText s _ hfs w
  rcases Start_events errText s w w2 r h with hl | hl
  · exact ⟨r, w2, [], h, hl, Or.inl rfl⟩
  · exact ⟨r, w2, [Event.cmdCombinedOutput s.config.PathToAdb ["start-server"]], h, hl,
      Or.inr rfl⟩

end ArgumentLemmas

/-! ## Lemmas: the receiver of `Start` and `Dial` -/

section ReceiverLemmas

variable {σ : Type} (errText : ErrCode → String → GoError → String)

/-- The method `Start` with its receiver in the state returns what `Start` returns, and
the receiver as it got it. -/
theorem realServer_Start_eq (s : realServer σ) (w : World σ) :
    realServer.Start errText s w =
      (Start errText s w).map fun p => (p.1, s, p.2) := by
  cases hfs : s.config.fs with
  | none => simp [realServer.Start, Start, hfs]
  | some fs =>
    rcases hq : fs.CmdCombinedOutput s.config.PathToAdb
      ["tcp:" ++ s.address, "start-server"] w.env with ⟨⟨out1, r1⟩, env1⟩
    cases r1 <;> simp [realServer.Start, Start, hfs, callCmdCombinedOutput, hq]

/-- The method `Dial` with its receiver in the state returns what `Dial` returns, and the
receiver as it got it. -/
theorem realServer_Dial_eq (s : realServer σ) (w : World σ) :
    realServer.Dial errText s w =
      (Dial errText s w).map fun p => (p.1, s, p.2) := by
  cases hd : s.config.Dialer with
  | none => simp [realServer.Dial, Dial, hd]
  | some d =>
    rcases h1 : d.Dial s.address w.env with ⟨⟨c1, r1⟩, env1⟩
    cases r1 with
    | none => simp [realServer.Dial, Dial, hd, callDial, h1]
    | some e1 =>
      cases hs : Start errText s ⟨env1, w.log ++ [Event.dial s.address]⟩ with
      | none => simp [realServer.Dial, Dial, hd, callDial, h1, realServer_Start_eq, hs]
      | some p =>
        rcases p with ⟨rs, w2⟩
        cases rs with
        | some startErr =>
          simp [realServer.Dial, Dial, hd, callDial, h1, realServer_Start_eq, hs]
        | none =>
          rcases h2 : d.Dial s.address w2.env with ⟨⟨c2, r2⟩, env3⟩
          cases r2 <;>
            simp [realServer.Dial, Dial, hd, callDial, h1, realServer_Start_eq, hs, h2]

end ReceiverLemmas

/-- C18: for every server built by `newServer`, the address cached at construction is the
defaulted host, a colon and the defaulted port; every call `Dial` makes is a dialer call
with exactly that address, an entry into `Start`, or one of the two start invocations with
the server's `PathToAdb`, the address-qualified one carrying `"tcp:"` followed by that
address; `Start` begins with that address-qualified invocation; and the object behind the
receiver, as `Dial` and as `Start` leave it, has the configuration and the cached address
it had before the call. -/
theorem Dial_Start_use_cached_address {σ : Type}
    (errText : ErrCode → String → GoError → String) (tcpDialer : Dialer σ)
    (localFilesystem : filesystem σ) (config : ServerConfig σ) (w0 : World σ)
    (s : realServer σ)
    (hbuilt : (newServer tcpDialer localFilesystem config w0).1.1 = some s) (w : World σ) :
    s.address = (if config.Host = "" then "localhost" else config.Host) ++ ":" ++
        fmtD (if config.Port = 0 then 5037 else config.Port) ∧
    (∃ (r : Option Conn × Option GoError) (w3 : World σ) (l : List Event),
      Dial errText s w = some (r, w3) ∧ w3.log = w.log ++ l ∧
      l.head? = some (Event.dial s.address) ∧
      ∀ ev ∈ l, ev = Event.dial s.address ∨ ev = Event.start ∨
        ev = Event.cmdCombinedOutput s.config.PathToAdb
          ["tcp:" ++ s.address, "start-server"] ∨
        ev = Event.cmdCombinedOutput s.config.PathToAdb ["start-server"]) ∧
    (∃ (r : Option GoError) (w2 : World σ) (l : List Event),
      Start errText s w = some (r, w2) ∧
      w2.log = w.log ++ Event.start ::
        Event.cmdCombinedOutput s.config.PathToAdb
          ["tcp:" ++ s.address, "start-server"] :: l ∧
      (l = [] ∨ l = [Event.cmdCombinedOutput s.config.PathToAdb ["start-server"]])) ∧
    (∃ (r : Option Conn × Option GoError) (s1 : realServer σ) (w3 : World σ),
      realServer.Dial errText s w = some (r, s1, w3) ∧ Dial errText s w = some (r, w3) ∧
      s1.config = s.config ∧ s1.address = s.address) ∧
    (∃ (r : Option GoError) (s1 : realServer σ) (w2 : World σ),
      realServer.Start errText s w = some (r, s1, w2) ∧ Start errText s w = some (r, w2) ∧
      s1.config = s.config ∧ s1.address = s.address) := by
  obtain ⟨path, env1, -, -, hs, -⟩ :=
    newServer_some tcpDialer localFilesystem config w0 s hbuilt
  have hd : s.config.Dialer = some (config.Dialer.getD tcpDialer) := by rw [hs]; rfl
  have hfs : s.config.fs = some (config.fs.getD localFilesystem) := by rw [hs]; rfl
  have haddr : s.address = (if config.Host = "" then "localhost" else config.Host) ++ ":" ++
      fmtD (if config.Port = 0 then 5037 else config.Port) := by rw [hs]; rfl
  refine ⟨haddr, ?_, ?_, ?_, ?_⟩
  · exact Dial_calls errText s _ _ hd hfs w
  · exact Start_calls errText s _ hfs w
  · obtain ⟨r, w3, h⟩ := Dial_total errText s _ _ hd hfs w
    refine ⟨r, s, w3, ?_, h, rfl, rfl⟩
    rw [realServer_Dial_eq, h]
    rfl
  · obtain ⟨r, w2, h⟩ := Start_total errText s _ hfs w
    refine ⟨r, s, w2, ?_, h, rfl, rfl⟩
    rw [realServer_Start_eq, h]
    rfl

/-- Witness of C18: the server `newServer` builds from the default configuration, with a
dialer that fails once and a process environment whose fallback invocation succeeds. -/
theorem Dial_Start_use_cached_address_witness :
    (newServer flakyDialer fallbackFs defaultConfig ⟨0, []⟩).1.1 =
      some (builtServer flakyDialer fallbackFs) ∧
    (builtServer flakyDialer fallbackFs).address = "localhost:5037" ∧
    Dial messageText (builtServer flakyDialer fallbackFs) ⟨0, []⟩ =
      some ((some ⟨7⟩, none), ⟨2, [Event.dial "localhost:5037", Event.start,
        Event.cmdCombinedOutput "/usr/bin/adb" ["tcp:localhost:5037", "start-server"],
        Event.cmdCombinedOutput "/usr/bin/adb" ["start-server"],
        Event.dial "localhost:5037"]⟩) ∧
    (∃ (r : Option Conn × Option GoError) (s1 : realServer Nat) (w3 : World Nat),
      realServer.Dial messageText (builtServer flakyDialer fallbackFs) ⟨0, []⟩ =
        some (r, s1, w3) ∧
      Dial messageText (builtServer flakyDialer fallbackFs) ⟨0, []⟩ = some (r, w3) ∧
      s1.config = (builtServer flakyDialer fallbackFs).config ∧
      s1.address = (builtServer flakyDialer fallbackFs).address) ∧
    (∃ (r : Option GoError) (s1 : realServer Nat) (w2 : World Nat),
      realServer.Start messageText (builtServer flakyDialer fallbackFs) ⟨0, []⟩ =
        some (r, s1, w2) ∧
      Start messageText (builtServer flakyDialer fallbackFs) ⟨0, []⟩ = some (r, w2) ∧
      s1.config = (builtServer flakyDialer fallbackFs).config ∧
      s1.address = (builtServer flakyDialer fallbackFs).address) :=
  ⟨rfl, rfl, rfl, (Dial_Start_use_cached_address messageText flakyDialer fallbackFs
    defaultConfig ⟨0, []⟩ (builtServer flakyDialer fallbackFs) rfl ⟨0, []⟩).2.2.2⟩

end Goadb
